import Mathlib

/-!
Shallow embedding of signalive/multilogger.

The repository has two variants of the same factory:
* `src/index.js` — a class `MultiLogger extends winston.Logger` with per-kind
  `addConsole` / `addFile` / `addPapertrail` / `addElasticsearch` /
  `addStackdriver` methods and a bulk `addByConfig`; embedded below in
  namespace `MJS`.
* the implementation part of `src/index.d.ts` — a function `createLogger`
  that walks a `transports` mapping with boolean / string shorthand
  normalization; embedded below in namespace `MDTS`.

Option objects are modelled as association lists of JSON-like values
(`Obj`).  Joi schemas are modelled as lists of field specifications; `attempt`
models `Joi.attempt(options, schema)` for the feature subset the repository
uses: `.unknown(false)` key checking, required fields, `.default(v)` filling,
type checks, the closed `level` enumeration, `Joi.number().port()`, and one
level of nested object schema (`serviceContext`).  Joi's string→number/boolean
conversions are not exercised by any claim and are not modelled.

lodash `_.defaults` and `_.defaultsDeep` are modelled on association lists.
`_.defaultsDeep` is modelled exactly for the shapes the source passes it:
the injected source objects have depth ≤ 2 with string leaves, so the merge
recursion is needed for exactly one nested level (`mergeVal`); lodash only
recurses when both sides are objects, which `defaultsDeep`/`mergeVal`
reproduce for every caller-supplied destination object.

The external collaborators (winston 2 logger engine for the class variant,
transport constructors, the credentials-file read) are modelled through their
interfaces: the engine's attachment map is an association list keyed by the
transport instance name (`console`, `file`, `Papertrail`, `Elasticsearch`,
`Stackdriver`), winston-2 `add` refuses a duplicate key, `remove` deletes the
key; `require(path).project_id` is a parameter `keyFiles : String → Option
String`, and `process.env.GOOGLE_APPLICATION_CREDENTIALS` a parameter
`env : Option String`.
-/

namespace Multilogger

/-- JSON-like runtime values of the option objects. -/
inductive JVal where
  | null
  | str (s : String)
  | num (n : Int)
  | bool (b : Bool)
  | func
  | arr (elems : List JVal)
  | obj (fields : List (String × JVal))

/-- An option object: an association list of fields (JS objects have unique
keys; lookups take the first occurrence). -/
abbrev Obj := List (String × JVal)

/-- Field lookup in an object (JS property read; `none` = `undefined`). -/
def lookupJ (k : String) : Obj → Option JVal
  | [] => none
  | kv :: rest => if kv.1 = k then some kv.2 else lookupJ k rest

/-- JS truthiness of a value. -/
def jTruthy : JVal → Bool
  | .null => false
  | .str s => s ≠ ""
  | .num n => n ≠ 0
  | .bool b => b
  | .func => true
  | .arr _ => true
  | .obj _ => true

/-- JS truthiness of a property read (`undefined` is falsy). -/
def jTruthyOpt : Option JVal → Bool
  | none => false
  | some v => jTruthy v

/-- Truthy string field of the logger (`this.name` etc.): `undefined` and the
empty string are falsy, so `getId x = some s` iff the field holds a truthy
string `s`. -/
def getId : Option String → Option String
  | none => none
  | some s => if s = "" then none else some s

/-! ## Joi schema model -/

/-- The closed, case-sensitive log-level enumeration shared by every kind's
schema: `Joi.string().valid('error', 'warn', 'info', 'verbose', 'debug',
'silly')`. -/
def levelEnum : List String := ["error", "warn", "info", "verbose", "debug", "silly"]

/-- Base (leaf) Joi types used by the repository's schemas. -/
inductive BaseTy where
  | bstr       -- Joi.string() (rejects the empty string by default)
  | bnum       -- Joi.number()
  | bbool      -- Joi.boolean()
  | bfunc      -- Joi.func()
  | bobjAny    -- Joi.object() with no keys constrained
  | bany       -- Joi.any()
  | benum (allowed : List String)   -- Joi.string().valid(...)
  | bport      -- Joi.number().port()
  | baltBF     -- Joi.alternatives().try(Joi.boolean(), Joi.func())
  | barrStr    -- Joi.array().items(Joi.string())

/-- A field of a nested object schema (`serviceContext`). -/
structure BField where
  key : String
  required : Bool
  ty : BaseTy

/-- A field type: a base type or a nested object schema
(`Joi.object({...})`, which also rejects unknown keys by default). -/
inductive FTy where
  | base (t : BaseTy)
  | nested (fields : List BField)

/-- One field of a top-level schema: key, required flag, optional
`.default(v)`, and type. -/
structure SField where
  key : String
  required : Bool
  dflt : Option JVal
  ty : FTy

abbrev Schema := List SField

def checkBase : BaseTy → JVal → Bool
  | .bstr, .str s => s ≠ ""
  | .bnum, .num _ => true
  | .bbool, .bool _ => true
  | .bfunc, .func => true
  | .bobjAny, .obj _ => true
  | .bany, _ => true
  | .benum xs, .str s => xs.contains s
  | .bport, .num n => 0 ≤ n && n ≤ 65535
  | .baltBF, .bool _ => true
  | .baltBF, .func => true
  | .barrStr, .arr xs => xs.all (fun v => match v with | .str s => s ≠ "" | _ => false)
  | _, _ => false

/-- Validation of a nested object schema: the value must be an object, all of
its keys must be declared, required fields must be present, and present
fields must type-check. -/
def checkNested (fs : List BField) : JVal → Bool
  | .obj o =>
      o.all (fun kv => fs.any (fun f => f.key == kv.1)) &&
      fs.all (fun f =>
        match lookupJ f.key o with
        | some w => checkBase f.ty w
        | none => !f.required)
  | _ => false

def checkF : FTy → JVal → Bool
  | .base t, v => checkBase t v
  | .nested fs, v => checkNested fs v

/-- Walk the schema's fields over an options object: a present field must
type-check and is kept with the caller's value; an absent required field is an
error; an absent optional field with a declared default is filled in. -/
def attemptFields : Schema → Obj → Except String Obj
  | [], _ => .ok []
  | f :: fs, o =>
    match lookupJ f.key o with
    | some v =>
        if checkF f.ty v then (attemptFields fs o).map (fun r => (f.key, v) :: r)
        else .error ("invalid value " ++ f.key)
    | none =>
        if f.required then .error ("missing field " ++ f.key)
        else
          match f.dflt with
          | some d => (attemptFields fs o).map (fun r => (f.key, d) :: r)
          | none => attemptFields fs o

/-- Model of `Joi.attempt(options, schema)` for a compiled `.unknown(false)` object
schema: reject any key outside the schema, then check every declared field,
returning the validated options with declared defaults filled in (Joi returns
a fresh validated value; the input object is not mutated). -/
def attempt (schema : Schema) (o : Obj) : Except String Obj :=
  match o.find? (fun kv => !(schema.any (fun f => f.key == kv.1))) with
  | some kv => .error ("unknown field " ++ kv.1)
  | none => attemptFields schema o

/-! ## lodash defaults -/

/-- Model of `_.defaults(dst, src)`: keep every field of `dst`; append each field of
`src` whose key `dst` lacks.  (lodash mutates `dst` in place and returns it;
the embedding returns the resulting object, and the attach operations below
expose it as the caller's options object after the call.) -/
def defaults (dst src : Obj) : Obj :=
  dst ++ src.filter (fun kv => (lookupJ kv.1 dst).isNone)

/-- One merge step of `_.defaultsDeep`: recurse only when both sides are
objects, otherwise keep the destination value.  The source objects the
repository passes to `_.defaultsDeep` have depth ≤ 2 with string leaves, so
one nested level of `defaults` is the full recursion. -/
def mergeVal (d s : JVal) : JVal :=
  match d, s with
  | .obj od, .obj os => .obj (defaults od os)
  | d, _ => d

/-- The value a `dst` field ends up with under `_.defaultsDeep(dst, src)`:
deep-merged against the same-keyed `src` field when present. -/
def ddval (src : Obj) (k : String) (v : JVal) : JVal :=
  match lookupJ k src with
  | some sv => mergeVal v sv
  | none => v

/-- Model of `_.defaultsDeep(dst, src)` for the source shapes used here: every `dst`
field is kept (deep-merged against the same-keyed `src` field when both are
objects); `src` fields missing from `dst` are appended. -/
def defaultsDeep (dst src : Obj) : Obj :=
  dst.map (fun kv => (kv.1, ddval src kv.1 kv.2))
  ++ src.filter (fun kv => (lookupJ kv.1 dst).isNone)

/-! ## Errors -/

/-- Synchronous failures of the factory.  In the source these are
`Joi.ValidationError`s and plain `Error`s distinguished by message; they are
tagged here by which `throw` site raises them. -/
inductive LogErr where
  | validation (msg : String)       -- a Joi.attempt failure
  | missingIdentity (field : String)  -- "A <field> must be set to the logger before creating ... transport"
  | missingCredentials              -- "Either keyFilePath/keyFilename or projectId must be provided ..."
  | fileError (path : String)       -- `require(path)` failed to resolve the credentials file
  | alreadyAttached (key : String)  -- winston-2 `add` with the key already attached
  | unknownShorthand (value kind : String)  -- "Unknown option <value> for transport <kind>"
deriving DecidableEq

/-! ## index.js: class MultiLogger -/

namespace MJS

/-- Schema `consoleTransportSchema` of `src/index.js`. -/
def consoleTransportSchema : Schema := [
  ⟨"level", false, none, .base (.benum levelEnum)⟩,
  ⟨"silent", false, none, .base .bbool⟩,
  ⟨"colorize", false, some (.bool true), .base .bbool⟩,
  ⟨"timestamp", false, none, .base .baltBF⟩,
  ⟨"json", false, none, .base .bbool⟩,
  ⟨"stringify", false, none, .base .bbool⟩,
  ⟨"prettyPrint", false, some (.bool true), .base .bbool⟩,
  ⟨"depth", false, none, .base .bnum⟩,
  ⟨"humanReadableUnhandledException", false, none, .base .bbool⟩,
  ⟨"showLevel", false, none, .base .bbool⟩,
  ⟨"formatter", false, none, .base .bfunc⟩,
  ⟨"stderrLevels", false, none, .base .barrStr⟩]

/-- Schema `fileTransportSchema` of `src/index.js`. -/
def fileTransportSchema : Schema := [
  ⟨"level", false, none, .base (.benum levelEnum)⟩,
  ⟨"label", false, none, .base .bstr⟩,
  ⟨"silent", false, none, .base .bbool⟩,
  ⟨"colorize", false, some (.bool true), .base .bbool⟩,
  ⟨"timestamp", false, none, .base .baltBF⟩,
  ⟨"filename", false, none, .base .bstr⟩,
  ⟨"maxsize", false, none, .base .bnum⟩,
  ⟨"maxFiles", false, none, .base .bnum⟩,
  ⟨"stream", false, none, .base .bobjAny⟩,
  ⟨"json", false, none, .base .bbool⟩,
  ⟨"eol", false, none, .base .bstr⟩,
  ⟨"prettyPrint", false, some (.bool true), .base .bbool⟩,
  ⟨"depth", false, none, .base .bnum⟩,
  ⟨"logstash", false, none, .base .bbool⟩,
  ⟨"showLevel", false, none, .base .bbool⟩,
  ⟨"formatter", false, none, .base .bfunc⟩,
  ⟨"tailable", false, none, .base .bbool⟩,
  ⟨"maxRetries", false, none, .base .bnum⟩,
  ⟨"zippedArchive", false, none, .base .bbool⟩,
  ⟨"options", false, none, .base .bobjAny⟩]

/-- Schema `papertrailTransportSchema` of `src/index.js`. -/
def papertrailTransportSchema : Schema := [
  ⟨"host", true, none, .base .bstr⟩,
  ⟨"port", true, none, .base .bport⟩,
  ⟨"program", true, none, .base .bstr⟩,
  ⟨"level", false, none, .base (.benum levelEnum)⟩,
  ⟨"inlineMeta", false, some (.bool true), .base .bbool⟩,
  ⟨"colorize", false, some (.bool true), .base .bbool⟩,
  ⟨"flushOnClose", false, some (.bool true), .base .bbool⟩,
  ⟨"logFormat", false, none, .base .bfunc⟩,
  ⟨"hostname", false, none, .base .bstr⟩,
  ⟨"disableTls", false, none, .base .bbool⟩,
  ⟨"levels", false, none, .base .bobjAny⟩,
  ⟨"facility", false, none, .base .bstr⟩,
  ⟨"handleExceptions", false, none, .base .bbool⟩,
  ⟨"depth", false, none, .base .bnum⟩,
  ⟨"attemptsBeforeDecay", false, none, .base .bnum⟩,
  ⟨"maximumAttempts", false, none, .base .bnum⟩,
  ⟨"connectionDelay", false, none, .base .bnum⟩,
  ⟨"maxDelayBetweenReconnection", false, none, .base .bnum⟩,
  ⟨"maxBufferSize", false, none, .base .bnum⟩]

/-- Schema `elasticsearchTransportSchema` of `src/index.js`. -/
def elasticsearchTransportSchema : Schema := [
  ⟨"level", false, none, .base (.benum levelEnum)⟩,
  ⟨"index", false, none, .base .bstr⟩,
  ⟨"indexPrefix", false, none, .base .bstr⟩,
  ⟨"indexSuffixPattern", false, none, .base .bstr⟩,
  ⟨"messageType", false, none, .base .bstr⟩,
  ⟨"transformer", false, none, .base .bfunc⟩,
  ⟨"ensureMappingTemplate", false, none, .base .bbool⟩,
  ⟨"mappingTemplate", false, none, .base .bobjAny⟩,
  ⟨"flushInterval", false, none, .base .bnum⟩,
  ⟨"client", false, none, .base .bobjAny⟩,
  ⟨"clientOpts", false, none, .base .bobjAny⟩,
  ⟨"waitForActiveShards", false, none, .base .bnum⟩,
  ⟨"pipeline", false, none, .base .bnum⟩]

/-- The nested `serviceContext` schema of `stackdriverTransportSchema`. -/
def serviceContextFields : List BField := [
  ⟨"service", true, .bstr⟩,
  ⟨"version", true, .bstr⟩,
  ⟨"resourceType", true, .bstr⟩]

/-- Schema `stackdriverTransportSchema` of `src/index.js`. -/
def stackdriverTransportSchema : Schema := [
  ⟨"projectId", true, none, .base .bstr⟩,
  ⟨"logName", true, none, .base .bstr⟩,
  ⟨"serviceContext", true, none, .nested serviceContextFields⟩,
  ⟨"keyFileName", false, none, .base .bstr⟩,
  ⟨"keyFilePath", false, none, .base .bstr⟩]

/-- Identity fields plus the winston-2 engine's attachment map, keyed by
transport instance name, value = the validated config the sink was
constructed from. -/
structure MultiLogger where
  name : Option String
  serviceType : Option String
  apiVersion : Option String
  transports : List (String × Obj)

/-- State right after `super()`: nothing set, nothing attached. -/
def initLogger : MultiLogger := ⟨none, none, none, []⟩

def lookupT (k : String) : List (String × Obj) → Option Obj
  | [] => none
  | kv :: rest => if kv.1 = k then some kv.2 else lookupT k rest

/-- Truthiness of `this.transports[k]`. -/
def hasT (k : String) (ts : List (String × Obj)) : Bool :=
  (lookupT k ts).isSome

/-- winston-2 `remove`: delete the key from the attachment map. -/
def removeT (k : String) (ts : List (String × Obj)) : List (String × Obj) :=
  ts.filter (fun kv => kv.1 ≠ k)

/-- Number of sinks attached under a key. -/
def countK (k : String) (ts : List (String × Obj)) : Nat :=
  (ts.filter (fun kv => kv.1 = k)).length

/-- Result of an attach call: the error if it threw, the logger state after
the call, and the caller's options object after the call (the source mutates
it in place for the kinds that inject defaults). -/
abbrev AttachResult := Option LogErr × MultiLogger × Obj

/-- Common body of `addConsole` / `addFile` / `addElasticsearch` (the kinds
with no precondition and no default injection): remove the existing sink of
this kind unless `multiple`, validate, construct and attach. -/
def addSimple (key : String) (schema : Schema) (L : MultiLogger) (options : Obj)
    (multiple : Bool) : AttachResult :=
  let L1 := if !multiple && hasT key L.transports
            then { L with transports := removeT key L.transports } else L
  match attempt schema options with
  | .error e => (some (.validation e), L1, options)
  | .ok config =>
    if hasT key L1.transports then (some (.alreadyAttached key), L1, options)
    else (none, { L1 with transports := (key, config) :: L1.transports }, options)

/-- Method `MultiLogger.addConsole` (the winston console transport instance is
named `console`). -/
def addConsole (L : MultiLogger) (options : Obj) (multiple : Bool) : AttachResult :=
  addSimple "console" consoleTransportSchema L options multiple

/-- Method `MultiLogger.addFile`. -/
def addFile (L : MultiLogger) (options : Obj) (multiple : Bool) : AttachResult :=
  addSimple "file" fileTransportSchema L options multiple

/-- Method `MultiLogger.addElasticsearch`. -/
def addElasticsearch (L : MultiLogger) (options : Obj) (multiple : Bool) : AttachResult :=
  addSimple "Elasticsearch" elasticsearchTransportSchema L options multiple

/-- Method `MultiLogger.addPapertrail`: requires `this.name`; injects
`program ← this.name` into the caller's options with `_.defaults` (in
place); validates; replace-or-add under the `Papertrail` key. -/
def addPapertrail (L : MultiLogger) (options : Obj) (multiple : Bool) : AttachResult :=
  match getId L.name with
  | none => (some (.missingIdentity "name"), L, options)
  | some n =>
    let L1 := if !multiple && hasT "Papertrail" L.transports
              then { L with transports := removeT "Papertrail" L.transports } else L
    let options1 := defaults options [("program", .str n)]
    match attempt papertrailTransportSchema options1 with
    | .error e => (some (.validation e), L1, options1)
    | .ok config =>
      if hasT "Papertrail" L1.transports then (some (.alreadyAttached "Papertrail"), L1, options1)
      else (none, { L1 with transports := ("Papertrail", config) :: L1.transports }, options1)

/-- The default object `_.defaultsDeep` merges into the stackdriver options
in `addStackdriver`: `projectId` (from the credentials file or `null`),
`logName ← this.name`, `serviceContext ← {service: this.serviceType,
version: this.apiVersion, resourceType: 'api'}`. -/
def stackSrc (pid : JVal) (n st v : String) : Obj :=
  [("projectId", pid), ("logName", .str n),
   ("serviceContext", .obj
      [("service", .str st), ("version", .str v), ("resourceType", .str "api")])]

/-- Method `MultiLogger.addStackdriver`: identity preconditions in order `name`,
`serviceType`, `apiVersion`; then either `keyFilePath` or `projectId` must be
truthy; replace-or-add; `projectId` extracted from the credentials file
(`keyFiles` models `require(path).project_id`); deep default injection into
the caller's options; validation; attach under the `Stackdriver` key. -/
def addStackdriver (keyFiles : String → Option String) (L : MultiLogger)
    (options : Obj) (multiple : Bool) : AttachResult :=
  match getId L.name with
  | none => (some (.missingIdentity "name"), L, options)
  | some n =>
  match getId L.serviceType with
  | none => (some (.missingIdentity "serviceType"), L, options)
  | some st =>
  match getId L.apiVersion with
  | none => (some (.missingIdentity "apiVersion"), L, options)
  | some v =>
  if !jTruthyOpt (lookupJ "keyFilePath" options) && !jTruthyOpt (lookupJ "projectId" options) then
    (some .missingCredentials, L, options)
  else
    let L1 := if !multiple && hasT "Stackdriver" L.transports
              then { L with transports := removeT "Stackdriver" L.transports } else L
    let pidE : Except LogErr JVal :=
      if jTruthyOpt (lookupJ "keyFilePath" options) then
        match lookupJ "keyFilePath" options with
        | some (.str p) =>
          match keyFiles p with
          | some pid => .ok (.str pid)
          | none => .error (.fileError p)
        | _ => .error (.fileError "keyFilePath")
      else .ok .null
    match pidE with
    | .error e => (some e, L1, options)
    | .ok pid =>
      let options1 := defaultsDeep options (stackSrc pid n st v)
      match attempt stackdriverTransportSchema options1 with
      | .error e => (some (.validation e), L1, options1)
      | .ok config =>
        if hasT "Stackdriver" L1.transports then (some (.alreadyAttached "Stackdriver"), L1, options1)
        else (none, { L1 with transports := ("Stackdriver", config) :: L1.transports }, options1)

/-- Method `MultiLogger.setName`: `Joi.attempt(name, Joi.string())` (a non-string or
the empty string fails), then store. -/
def setName (L : MultiLogger) (v : JVal) : Except LogErr MultiLogger :=
  match v with
  | .str s => if s = "" then .error (.validation "invalid value name")
              else .ok { L with name := some s }
  | _ => .error (.validation "invalid value name")

/-- Method `MultiLogger.setServiceType`. -/
def setServiceType (L : MultiLogger) (v : JVal) : Except LogErr MultiLogger :=
  match v with
  | .str s => if s = "" then .error (.validation "invalid value serviceType")
              else .ok { L with serviceType := some s }
  | _ => .error (.validation "invalid value serviceType")

/-- Method `MultiLogger.setApiVersion`. -/
def setApiVersion (L : MultiLogger) (v : JVal) : Except LogErr MultiLogger :=
  match v with
  | .str s => if s = "" then .error (.validation "invalid value apiVersion")
              else .ok { L with apiVersion := some s }
  | _ => .error (.validation "invalid value apiVersion")

/-- The object alternative of the constructor's parameter schema:
`Joi.object({name: Joi.string(), serviceType: Joi.string(), apiVersion:
Joi.string()})` — only these three keys, each (when present) a non-empty
string. -/
def ctorObjOk (o : Obj) : Bool :=
  o.all (fun kv => kv.1 == "name" || kv.1 == "serviceType" || kv.1 == "apiVersion") &&
  o.all (fun kv => match kv.2 with | .str s => s ≠ "" | _ => false)

/-- The constructor's `Joi.alternatives().try(Joi.string(), Joi.object({...}))`
check on a present parameter value. -/
def ctorParamOk : JVal → Bool
  | .str s => s ≠ ""
  | .obj o => ctorObjOk o
  | _ => false

/-- Identity field read in the constructor: `if (name) this.setName(name)` —
set only when present and truthy (after validation the present values are
non-empty strings, so the setters cannot fail here). -/
def getStrField (k : String) (o : Obj) : Option String :=
  match lookupJ k o with
  | some (.str s) => if s = "" then none else some s
  | _ => none

/-- Constructor `new MultiLogger(params)`: `super()` initializes an empty logger;
`Joi.attempt` accepts a missing parameter, a non-empty string (then
`setName`) or an object of identity fields (each truthy field is set);
anything else is a validation error. -/
def mkMultiLogger (params : Option JVal) : Except LogErr MultiLogger :=
  match params with
  | none => .ok initLogger
  | some v =>
    if ctorParamOk v then
      match v with
      | .str s => .ok { initLogger with name := some s }
      | .obj o => .ok { initLogger with
                        name := getStrField "name" o,
                        serviceType := getStrField "serviceType" o,
                        apiVersion := getStrField "apiVersion" o }
      | _ => .ok initLogger
    else .error (.validation "invalid constructor params")

/-- A constructor parameter object holding exactly the present identity
fields (used to quantify over "an object of identity fields"). -/
def mkIdObj (no sv av : Option String) : Obj :=
  (match no with | some s => [("name", JVal.str s)] | none => []) ++
  (match sv with | some s => [("serviceType", JVal.str s)] | none => []) ++
  (match av with | some s => [("apiVersion", JVal.str s)] | none => [])

/-! ### addByConfig -/

/-- Replace the value under one key of the configuration mapping. -/
def mapVal (k : String) (f : JVal → JVal) (conf : List (String × JVal)) :
    List (String × JVal) :=
  conf.map (fun kv => if kv.1 = k then (kv.1, f kv.2) else kv)

/-- One in-place default injection of `addByConfig`:
`if (conf[key]) _.defaults(conf[key], {field: this.name})`.  A
`{field: undefined}` source (unset name) adds nothing Joi can see, and
`_.defaults` on a truthy non-object entry does not change the mapping, so
both are modelled as no-ops. -/
def injDefault (L : MultiLogger) (key field : String)
    (c : List (String × JVal)) : List (String × JVal) :=
  if jTruthyOpt (lookupJ key c) then
    mapVal key (fun v =>
      match v with
      | .obj o => .obj (defaults o (match getId L.name with
                                    | some n => [(field, .str n)]
                                    | none => []))
      | v => v) c
  else c

/-- The two in-place default injections `addByConfig` performs before the
upfront validation: `_.defaults(conf.papertrail, {program: this.name})` and
`_.defaults(conf.stackdriver, {logName: this.name})`, each only when the
entry is truthy. -/
def bulkDefaults (L : MultiLogger) (conf : List (String × JVal)) :
    List (String × JVal) :=
  injDefault L "stackdriver" "logName" (injDefault L "papertrail" "program" conf)

/-- The per-kind sub-schemas of the upfront `Joi.attempt(conf, Joi.object({
console: ..., file: ..., papertrail: ..., elasticsearch: ..., stackdriver:
...}))`. -/
def kindSchemas : List (String × Schema) :=
  [("console", consoleTransportSchema),
   ("file", fileTransportSchema),
   ("papertrail", papertrailTransportSchema),
   ("elasticsearch", elasticsearchTransportSchema),
   ("stackdriver", stackdriverTransportSchema)]

def lookupSchema (k : String) : List (String × Schema) → Option Schema
  | [] => none
  | kv :: rest => if kv.1 = k then some kv.2 else lookupSchema k rest

/-- The upfront whole-mapping validation of `addByConfig`: every key must be
one of the five kinds and every entry must be an object satisfying its
kind's schema.  (Joi's validated copy is discarded by the source.) -/
def validateBulk : List (String × JVal) → Except String Unit
  | [] => .ok ()
  | (k, v) :: rest =>
    match lookupSchema k kindSchemas with
    | none => .error ("unknown field " ++ k)
    | some sch =>
      match v with
      | .obj o =>
        match attempt sch o with
        | .error e => .error e
        | .ok _ => validateBulk rest
      | _ => .error ("invalid value " ++ k)

/-- Per-kind dispatch of the `_.forEach` in `addByConfig` (an entry whose key
is none of the five kinds falls through every `if` and does nothing). -/
def dispatch (keyFiles : String → Option String) (k : String) (L : MultiLogger)
    (o : Obj) : AttachResult :=
  if k = "console" then addConsole L o false
  else if k = "file" then addFile L o false
  else if k = "papertrail" then addPapertrail L o false
  else if k = "elasticsearch" then addElasticsearch L o false
  else if k = "stackdriver" then addStackdriver keyFiles L o false
  else (none, L, o)

/-- The `_.forEach` of `addByConfig`: attach each entry in mapping order; a
thrown error aborts the iteration, keeping everything attached so far (no
rollback).  Returns the error (if any), the logger state, and the mapping
with its entry objects as mutated by the per-kind attaches.  A non-object
entry value cannot reach this point (the upfront validation rejected it);
it is passed through untouched. -/
def runBulk (keyFiles : String → Option String) (L : MultiLogger) :
    List (String × JVal) → Option LogErr × MultiLogger × List (String × JVal)
  | [] => (none, L, [])
  | (k, v) :: rest =>
    let step : Option LogErr × MultiLogger × JVal :=
      match v with
      | .obj o =>
        let r := dispatch keyFiles k L o
        (r.1, r.2.1, .obj r.2.2)
      | v => (none, L, v)
    match step with
    | (some e, L1, v1) => (some e, L1, (k, v1) :: rest)
    | (none, L1, v1) =>
      let r := runBulk keyFiles L1 rest
      (r.1, r.2.1, (k, v1) :: r.2.2)

/-- Method `MultiLogger.addByConfig(conf)`: inject the `program` / `logName`
defaults into the mapping's entries in place, validate the whole mapping
against every kind's schema, and only then run the per-kind attaches. -/
def addByConfig (keyFiles : String → Option String) (L : MultiLogger)
    (conf : List (String × JVal)) :
    Option LogErr × MultiLogger × List (String × JVal) :=
  let conf1 := bulkDefaults L conf
  match validateBulk conf1 with
  | .error e => (some (.validation e), L, conf1)
  | .ok _ => runBulk keyFiles L conf1

end MJS

/-! ## The createLogger variant (implementation part of src/index.d.ts) -/

namespace MDTS

/-- Schema `consoleTransportSchema` of the createLogger variant. -/
def consoleTransportSchema : Schema := [
  ⟨"level", false, some (.str "info"), .base (.benum levelEnum)⟩,
  ⟨"silent", false, none, .base .bbool⟩,
  ⟨"format", false, none, .base .bfunc⟩,
  ⟨"humanReadableUnhandledException", false, none, .base .bbool⟩,
  ⟨"showLevel", false, none, .base .bbool⟩,
  ⟨"formatter", false, none, .base .bfunc⟩,
  ⟨"stderrLevels", false, none, .base .barrStr⟩]

/-- Schema `fileTransportSchema` of the createLogger variant. -/
def fileTransportSchema : Schema := [
  ⟨"level", false, some (.str "info"), .base (.benum levelEnum)⟩,
  ⟨"silent", false, none, .base .bbool⟩,
  ⟨"format", false, none, .base .bfunc⟩,
  ⟨"filename", false, none, .base .bstr⟩,
  ⟨"maxsize", false, none, .base .bnum⟩,
  ⟨"maxFiles", false, none, .base .bnum⟩,
  ⟨"stream", false, none, .base .bobjAny⟩,
  ⟨"eol", false, none, .base .bstr⟩,
  ⟨"logstash", false, none, .base .bbool⟩,
  ⟨"showLevel", false, none, .base .bbool⟩,
  ⟨"formatter", false, none, .base .bfunc⟩,
  ⟨"tailable", false, none, .base .bbool⟩,
  ⟨"maxRetries", false, none, .base .bnum⟩,
  ⟨"zippedArchive", false, none, .base .bbool⟩,
  ⟨"options", false, none, .base .bobjAny⟩]

/-- Schema `papertrailTransportSchema` of the createLogger variant. -/
def papertrailTransportSchema : Schema := [
  ⟨"host", true, none, .base .bstr⟩,
  ⟨"port", true, none, .base .bport⟩,
  ⟨"program", true, none, .base .bstr⟩,
  ⟨"level", false, some (.str "info"), .base (.benum levelEnum)⟩,
  ⟨"inlineMeta", false, some (.bool true), .base .bbool⟩,
  ⟨"colorize", false, none, .base .bfunc⟩,
  ⟨"flushOnClose", false, some (.bool true), .base .bbool⟩,
  ⟨"logFormat", false, none, .base .bfunc⟩,
  ⟨"hostname", false, none, .base .bstr⟩,
  ⟨"disableTls", false, none, .base .bbool⟩,
  ⟨"levels", false, none, .base .bobjAny⟩,
  ⟨"facility", false, none, .base .bstr⟩,
  ⟨"handleExceptions", false, none, .base .bbool⟩,
  ⟨"depth", false, none, .base .bnum⟩,
  ⟨"attemptsBeforeDecay", false, none, .base .bnum⟩,
  ⟨"maximumAttempts", false, none, .base .bnum⟩,
  ⟨"connectionDelay", false, none, .base .bnum⟩,
  ⟨"maxDelayBetweenReconnection", false, none, .base .bnum⟩,
  ⟨"maxBufferSize", false, none, .base .bnum⟩]

/-- Schema `elasticsearchTransportSchema` of the createLogger variant. -/
def elasticsearchTransportSchema : Schema := [
  ⟨"level", false, some (.str "info"), .base (.benum levelEnum)⟩,
  ⟨"index", false, none, .base .bstr⟩,
  ⟨"indexPrefix", false, none, .base .bstr⟩,
  ⟨"indexSuffixPattern", false, none, .base .bstr⟩,
  ⟨"messageType", false, none, .base .bstr⟩,
  ⟨"transformer", false, none, .base .bfunc⟩,
  ⟨"useTransformer", false, none, .base .bbool⟩,
  ⟨"ensureIndexTemplate", false, none, .base .bbool⟩,
  ⟨"indexTemplate", false, none, .base .bobjAny⟩,
  ⟨"flushInterval", false, none, .base .bnum⟩,
  ⟨"retryLimit", false, none, .base .bnum⟩,
  ⟨"healthCheckTimeout", false, none, .base .bnum⟩,
  ⟨"healthCheckWaitForStatus", false, none, .base (.benum ["green", "yellow", "red"])⟩,
  ⟨"healthCheckWaitForNodes", false, none, .base .bnum⟩,
  ⟨"client", false, none, .base .bobjAny⟩,
  ⟨"clientOpts", false, none, .base .bobjAny⟩,
  ⟨"waitForActiveShards", false, none, .base .bnum⟩,
  ⟨"pipeline", false, none, .base .bnum⟩,
  ⟨"buffering", false, none, .base .bbool⟩,
  ⟨"bufferLimit", false, none, .base .bnum⟩,
  ⟨"apm", false, none, .base .bany⟩,
  ⟨"dataStream", false, none, .base .bbool⟩,
  ⟨"source", false, none, .base .bstr⟩,
  ⟨"internalLogger", false, none, .base .bfunc⟩]

/-- Schema `stackdriverTransportSchema` of the createLogger variant (this one has a
`level` field with default `'info'`, and `keyFilename` / `labels`). -/
def stackdriverTransportSchema : Schema := [
  ⟨"level", false, some (.str "info"), .base (.benum levelEnum)⟩,
  ⟨"projectId", true, none, .base .bstr⟩,
  ⟨"logName", true, none, .base .bstr⟩,
  ⟨"serviceContext", true, none, .nested MJS.serviceContextFields⟩,
  ⟨"keyFilename", false, none, .base .bstr⟩,
  ⟨"labels", false, none, .base .bobjAny⟩]

/-- A value of the `transports` mapping: a full options object, a boolean
shorthand, or a string shorthand (the shapes `createLogger` dispatches on
with `_.isBoolean` / `_.isString`). -/
inductive TVal where
  | b (value : Bool)
  | s (value : String)
  | o (fields : Obj)

/-- The default object `_.defaultsDeep` merges into the stackdriver options
in `createLogger`: note `logName ← serviceType` and
`serviceContext.service ← name` (the class variant swaps the two), plus
`keyFilename` (when resolved) and `labels`. -/
def stackSrcD (pid : JVal) (n st v : String) (kf : Option JVal) : Obj :=
  [("projectId", pid), ("logName", .str st),
   ("serviceContext", .obj
      [("service", .str n), ("version", .str v), ("resourceType", .str "api")])]
  ++ (match kf with | some w => [("keyFilename", w)] | none => [])
  ++ [("labels", .obj [("name", .str n), ("version", .str v)])]

/-- One iteration of `createLogger`'s `_.forEach(transports, ...)`: normalize
the boolean / string shorthand (`true` and `"enabled"` mean empty options,
`false` and `"disabled"` skip the kind, any other string throws), then
dispatch on the kind name; a kind name outside the five known ones matches no
branch and is ignored.  `acc` is the list of transports attached so far
(winston-3 `logger.add`); the `logger.remove(Class)` calls match no attached
instance on the freshly created logger and are no-ops. -/
def applyEntry (env : Option String) (keyFiles : String → Option String)
    (name serviceType apiVersion : Option String)
    (acc : List (String × Obj)) (k : String) (v : TVal) :
    Except LogErr (List (String × Obj)) :=
  let norm : Except LogErr (Option Obj) :=
    match v with
    | .b b => if b then .ok (some []) else .ok none
    | .s s =>
      if s = "enabled" then .ok (some [])
      else if s = "disabled" then .ok none
      else .error (.unknownShorthand s k)
    | .o o => .ok (some o)
  match norm with
  | .error e => .error e
  | .ok none => .ok acc
  | .ok (some options) =>
    if k = "console" then
      match attempt consoleTransportSchema options with
      | .error e => .error (.validation e)
      | .ok config => .ok (acc ++ [("console", config)])
    else if k = "file" then
      match attempt fileTransportSchema options with
      | .error e => .error (.validation e)
      | .ok config => .ok (acc ++ [("file", config)])
    else if k = "papertrail" then
      match getId name with
      | none => .error (.missingIdentity "name")
      | some n =>
        match attempt papertrailTransportSchema (defaults options [("program", .str n)]) with
        | .error e => .error (.validation e)
        | .ok config => .ok (acc ++ [("papertrail", config)])
    else if k = "elasticsearch" then
      match attempt elasticsearchTransportSchema options with
      | .error e => .error (.validation e)
      | .ok config => .ok (acc ++ [("elasticsearch", config)])
    else if k = "stackdriver" then
      match getId name with
      | none => .error (.missingIdentity "name")
      | some n =>
      match getId serviceType with
      | none => .error (.missingIdentity "serviceType")
      | some st =>
      match getId apiVersion with
      | none => .error (.missingIdentity "apiVersion")
      | some ver =>
        let kf : Option JVal :=
          if jTruthyOpt (lookupJ "keyFilename" options) then lookupJ "keyFilename" options
          else (getId env).map .str
        if kf.isNone && !jTruthyOpt (lookupJ "projectId" options) then
          .error .missingCredentials
        else
          let pidE : Except LogErr JVal :=
            match kf with
            | some (.str p) =>
              match keyFiles p with
              | some pid => .ok (.str pid)
              | none => .error (.fileError p)
            | some _ => .error (.fileError "keyFilename")
            | none => .ok .null
          match pidE with
          | .error e => .error e
          | .ok pid =>
            match attempt stackdriverTransportSchema
                    (defaultsDeep options (stackSrcD pid n st ver kf)) with
            | .error e => .error (.validation e)
            | .ok config => .ok (acc ++ [("stackdriver", config)])
    else .ok acc

/-- Function `createLogger(params)` of the createLogger variant: validate the
parameter object (each identity field, when present, a non-empty string),
then fold the `transports` mapping through `applyEntry`, returning the list
of `(kind, validated options)` the transport constructors received, in
attachment order. -/
def createLogger (env : Option String) (keyFiles : String → Option String)
    (name serviceType apiVersion : Option String)
    (transports : List (String × TVal)) : Except LogErr (List (String × Obj)) :=
  if name = some "" || serviceType = some "" || apiVersion = some "" then
    .error (.validation "invalid createLogger params")
  else
    transports.foldlM
      (fun acc kv => applyEntry env keyFiles name serviceType apiVersion acc kv.1 kv.2) []

end MDTS

/-! ## Lemmas about lookups, defaults and validation -/

theorem lookupJ_append_left {k : String} {a : Obj} (b : Obj) {v : JVal}
    (h : lookupJ k a = some v) : lookupJ k (a ++ b) = some v := by
  induction a with
  | nil => simp [lookupJ] at h
  | cons kv rest ih =>
    by_cases hk : kv.1 = k <;> simp_all [lookupJ]

theorem lookupJ_append_right {k : String} {a : Obj} (b : Obj)
    (h : lookupJ k a = none) : lookupJ k (a ++ b) = lookupJ k b := by
  induction a with
  | nil => rfl
  | cons kv rest ih =>
    by_cases hk : kv.1 = k <;> simp_all [lookupJ]

theorem lookupJ_filter {k : String} (l : Obj) {p : String × JVal → Bool}
    (h : ∀ kv : String × JVal, kv.1 = k → p kv = true) :
    lookupJ k (l.filter p) = lookupJ k l := by
  induction l with
  | nil => rfl
  | cons kv rest ih =>
    by_cases hk : kv.1 = k
    · rw [List.filter_cons_of_pos (h kv hk)]
      simp [lookupJ, hk]
    · cases hp : p kv with
      | true => rw [List.filter_cons_of_pos hp]; simp [lookupJ, hk, ih]
      | false => rw [List.filter_cons_of_neg (by simp [hp])]; simp [lookupJ, hk, ih]

theorem lookupJ_defaults (k : String) (d s : Obj) :
    lookupJ k (defaults d s) =
      match lookupJ k d with
      | some v => some v
      | none => lookupJ k s := by
  cases h : lookupJ k d with
  | some v => exact lookupJ_append_left _ h
  | none =>
    unfold defaults
    rw [lookupJ_append_right _ h, lookupJ_filter]
    intro kv hk
    rw [hk, h]
    rfl

theorem lookupJ_keyMap (k : String) (g : String → JVal → JVal) (d : Obj) :
    lookupJ k (d.map (fun kv => (kv.1, g kv.1 kv.2))) = (lookupJ k d).map (g k) := by
  induction d with
  | nil => rfl
  | cons kv rest ih =>
    by_cases hk : kv.1 = k <;> simp_all [lookupJ]

theorem lookupJ_defaultsDeep (k : String) (d s : Obj) :
    lookupJ k (defaultsDeep d s) =
      match lookupJ k d with
      | some v => some (ddval s k v)
      | none => lookupJ k s := by
  cases h : lookupJ k d with
  | some v =>
    apply lookupJ_append_left
    rw [lookupJ_keyMap k (fun a b => ddval s a b) d, h]
    rfl
  | none =>
    unfold defaultsDeep
    rw [lookupJ_append_right, lookupJ_filter]
    · intro kv hk; rw [hk, h]; rfl
    · rw [lookupJ_keyMap k (fun a b => ddval s a b) d, h]
      rfl

theorem any_key_tail {f : SField} {fs : List SField} {k : String}
    (hmem : ((f :: fs).any fun g => g.key == k) = true) (hk : f.key ≠ k) :
    (fs.any fun g => g.key == k) = true := by
  simp only [List.any_cons] at hmem
  rcases Bool.or_eq_true_iff.mp hmem with h1 | h1
  · exact absurd (by simpa using h1) hk
  · exact h1

/-- A field present in the options is kept, with the caller's value, in the
validated result. -/
theorem attemptFields_lookup {schema : Schema} {o r : Obj} {k : String} {v : JVal}
    (hr : attemptFields schema o = .ok r)
    (hmem : schema.any (fun f => f.key == k) = true)
    (hv : lookupJ k o = some v) :
    lookupJ k r = some v := by
  induction schema generalizing r with
  | nil => simp at hmem
  | cons f fs ih =>
    rw [attemptFields] at hr
    split at hr
    next w hfo =>
      split at hr
      next hc =>
        cases hrec : attemptFields fs o with
        | error e => rw [hrec] at hr; exact absurd hr (by simp [Except.map])
        | ok r0 =>
          rw [hrec] at hr
          have hr' : (f.key, w) :: r0 = r := by simpa [Except.map] using hr
          subst hr'
          by_cases hk : f.key = k
          · rw [← hk, hfo] at hv
            cases hv
            simp [lookupJ, hk]
          · rw [lookupJ, if_neg hk]
            exact ih hrec (any_key_tail hmem hk)
      next hc => exact absurd hr (by simp)
    next hfo =>
      have hk : f.key ≠ k := fun he => by rw [he, hv] at hfo; cases hfo
      split at hr
      next hreq => exact absurd hr (by simp)
      next hreq =>
        split at hr
        next d hd =>
          cases hrec : attemptFields fs o with
          | error e => rw [hrec] at hr; exact absurd hr (by simp [Except.map])
          | ok r0 =>
            rw [hrec] at hr
            have hr' : (f.key, d) :: r0 = r := by simpa [Except.map] using hr
            subst hr'
            rw [lookupJ, if_neg hk]
            exact ih hrec (any_key_tail hmem hk)
        next hd =>
          exact ih hr (any_key_tail hmem hk)

/-- A declared default of an absent optional field is filled into the
validated result (schema keys are distinct in every schema of the source). -/
theorem attemptFields_default {schema : Schema} {o r : Obj} (g : SField) (dv : JVal)
    (hr : attemptFields schema o = .ok r)
    (hd0 : g.dflt = some dv)
    (hmem : g ∈ schema)
    (ho : lookupJ g.key o = none)
    (hnd : (schema.map SField.key).Nodup) :
    lookupJ g.key r = some dv := by
  induction schema generalizing r with
  | nil => simp at hmem
  | cons f fs ih =>
    have hnd' : (fs.map SField.key).Nodup := (List.nodup_cons.mp (by simpa using hnd)).2
    rcases List.mem_cons.mp hmem with hf | hf
    · subst hf
      rw [attemptFields, ho] at hr
      dsimp only at hr
      split at hr
      next => exact absurd hr (by simp)
      next =>
        rw [hd0] at hr
        dsimp only at hr
        cases hrec : attemptFields fs o with
        | error e => rw [hrec] at hr; exact absurd hr (by simp [Except.map])
        | ok r0 =>
          rw [hrec] at hr
          have hr' : (g.key, dv) :: r0 = r := by simpa [Except.map] using hr
          subst hr'
          simp [lookupJ]
    · have hk : f.key ≠ g.key := by
        intro he
        have hin : g.key ∈ fs.map SField.key := List.mem_map.mpr ⟨_, hf, rfl⟩
        have hout : f.key ∉ fs.map SField.key := (List.nodup_cons.mp (by simpa using hnd)).1
        exact hout (he ▸ hin)
      rw [attemptFields] at hr
      split at hr
      next w hfo =>
        split at hr
        next hc =>
          cases hrec : attemptFields fs o with
          | error e => rw [hrec] at hr; exact absurd hr (by simp [Except.map])
          | ok r0 =>
            rw [hrec] at hr
            have hr' : (f.key, w) :: r0 = r := by simpa [Except.map] using hr
            subst hr'
            rw [lookupJ, if_neg hk]
            exact ih hrec hf hnd'
        next hc => exact absurd hr (by simp)
      next hfo =>
        split at hr
        next => exact absurd hr (by simp)
        next =>
          split at hr
          next d hd =>
            cases hrec : attemptFields fs o with
            | error e => rw [hrec] at hr; exact absurd hr (by simp [Except.map])
            | ok r0 =>
              rw [hrec] at hr
              have hr' : (f.key, d) :: r0 = r := by simpa [Except.map] using hr
              subst hr'
              rw [lookupJ, if_neg hk]
              exact ih hrec hf hnd'
          next hd =>
            exact ih hr hf hnd'

/-- A present field whose value fails its type check makes the field walk
fail. -/
theorem attemptFields_err {schema : Schema} {o : Obj} {f : SField} {v : JVal}
    (hmem : f ∈ schema) (hv : lookupJ f.key o = some v)
    (hbad : checkF f.ty v = false) :
    ∃ e, attemptFields schema o = .error e := by
  induction schema with
  | nil => simp at hmem
  | cons g gs ih =>
    rw [attemptFields]
    rcases List.mem_cons.mp hmem with hg | hg
    · subst hg
      exact ⟨"invalid value " ++ f.key, by rw [hv]; simp [hbad]⟩
    · obtain ⟨e, he⟩ := ih hg
      split
      next w hfo =>
        split
        next hc => exact ⟨e, by rw [he]; rfl⟩
        next hc => exact ⟨_, rfl⟩
      next hfo =>
        split
        next => exact ⟨_, rfl⟩
        next =>
          split
          next d hd => exact ⟨e, by rw [he]; rfl⟩
          next hd => exact ⟨e, he⟩

theorem attempt_ok_fields {schema : Schema} {o r : Obj}
    (h : attempt schema o = .ok r) : attemptFields schema o = .ok r := by
  unfold attempt at h
  split at h
  next => exact absurd h (by simp)
  next => exact h

theorem attempt_lookup {schema : Schema} {o r : Obj} {k : String} {v : JVal}
    (h : attempt schema o = .ok r)
    (hmem : schema.any (fun f => f.key == k) = true)
    (hv : lookupJ k o = some v) :
    lookupJ k r = some v :=
  attemptFields_lookup (attempt_ok_fields h) hmem hv

theorem attempt_default {schema : Schema} {o r : Obj} (g : SField) (dv : JVal)
    (h : attempt schema o = .ok r)
    (hd0 : g.dflt = some dv)
    (hmem : g ∈ schema)
    (ho : lookupJ g.key o = none)
    (hnd : (schema.map SField.key).Nodup) :
    lookupJ g.key r = some dv :=
  attemptFields_default g dv (attempt_ok_fields h) hd0 hmem ho hnd

theorem attempt_err_of_bad_field {schema : Schema} {o : Obj} {f : SField} {v : JVal}
    (hmem : f ∈ schema) (hv : lookupJ f.key o = some v)
    (hbad : checkF f.ty v = false) :
    ∃ e, attempt schema o = .error e := by
  unfold attempt
  split
  next kv hf => exact ⟨_, rfl⟩
  next => exact attemptFields_err hmem hv hbad

/-- An options object holding any key outside the schema fails validation. -/
theorem attempt_err_of_unknown {schema : Schema} {o : Obj}
    (h : o.any (fun kv => !(schema.any (fun f => f.key == kv.1))) = true) :
    ∃ e, attempt schema o = .error e := by
  unfold attempt
  split
  next kv hf => exact ⟨_, rfl⟩
  next hnone =>
    exfalso
    rw [List.find?_eq_none] at hnone
    obtain ⟨kv, hkv, hp⟩ := List.any_eq_true.mp h
    exact hnone kv hkv hp

namespace MJS

theorem lookupT_removeT (k : String) (ts : List (String × Obj)) :
    lookupT k (removeT k ts) = none := by
  induction ts with
  | nil => rfl
  | cons kv rest ih =>
    by_cases hk : kv.1 = k
    · rw [removeT, List.filter_cons_of_neg (by simp [hk])]
      exact ih
    · rw [removeT, List.filter_cons_of_pos (by simp [hk])]
      rw [lookupT, if_neg hk]
      exact ih

theorem hasT_removeT (k : String) (ts : List (String × Obj)) :
    hasT k (removeT k ts) = false := by
  rw [hasT, lookupT_removeT]
  rfl

theorem removeT_of_not_has {k : String} {ts : List (String × Obj)}
    (h : hasT k ts = false) : removeT k ts = ts := by
  induction ts with
  | nil => rfl
  | cons kv rest ih =>
    by_cases hk : kv.1 = k
    · rw [hasT, lookupT, if_pos hk] at h
      simp at h
    · rw [hasT, lookupT, if_neg hk] at h
      have hstep : removeT k (kv :: rest) = kv :: removeT k rest := by
        rw [removeT, List.filter_cons_of_pos (by simp [hk])]
        rfl
      rw [hstep, ih h]

theorem removeT_cons_self (k : String) (c : Obj) (ts : List (String × Obj)) :
    removeT k ((k, c) :: ts) = removeT k ts := by
  rw [removeT, List.filter_cons_of_neg (by simp)]
  rfl

theorem removeT_idem (k : String) (ts : List (String × Obj)) :
    removeT k (removeT k ts) = removeT k ts :=
  removeT_of_not_has (hasT_removeT k ts)

theorem countK_removeT (k : String) (ts : List (String × Obj)) :
    countK k (removeT k ts) = 0 := by
  induction ts with
  | nil => rfl
  | cons kv rest ih =>
    by_cases hk : kv.1 = k
    · rw [removeT, List.filter_cons_of_neg (by simp [hk])]
      exact ih
    · rw [removeT, List.filter_cons_of_pos (by simp [hk])]
      rw [countK, List.filter_cons_of_neg (by simp [hk])]
      exact ih

theorem countK_cons_self (k : String) (c : Obj) (ts : List (String × Obj)) :
    countK k ((k, c) :: ts) = countK k ts + 1 := by
  rw [countK, List.filter_cons_of_pos (by simp)]
  rfl

/-- Successful run of the shared replace-validate-add body: with valid
options the call succeeds and the new sink sits in front of the map purged
of its kind, the caller's options untouched. -/
theorem addSimple_ok (key : String) (schema : Schema) (L : MultiLogger) {o c : Obj}
    (h : attempt schema o = .ok c) :
    addSimple key schema L o false =
      (none, { L with transports := (key, c) :: removeT key L.transports }, o) := by
  unfold addSimple
  rw [h]
  cases hh : hasT key L.transports with
  | true => simp [hh, hasT_removeT]
  | false => simp [hh, removeT_of_not_has hh]

end MJS

/-! ## Claims -/

/-- Claim C1, counterexample: the class-based attach removes the previously
attached sink of the kind before validating, so after a failed `addConsole`
(options with the unknown key `bogus`) on a logger with a console sink
attached, the attach map is no longer identical to the pre-state: the
console sink is gone. -/
theorem C1_counterexample :
    (MJS.addConsole ⟨none, none, none, [("console", [])]⟩
        [("bogus", JVal.bool true)] false).2.1.transports = [] ∧
    (MJS.addConsole ⟨none, none, none, [("console", [])]⟩
        [("bogus", JVal.bool true)] false).1 =
      some (LogErr.validation "unknown field bogus") :=
  ⟨rfl, rfl⟩

/-- Claim C1 (amended): for every options object containing a key not in the
console schema, `addConsole` fails with a `ValidationError`, no sink is
constructed or attached, and the caller's options are returned unchanged —
but the attach map is not necessarily the pre-state: in non-additive mode a
previously attached console sink has already been removed when the
validation failure aborts the call. -/
theorem C1_unknown_key_aborts_after_removal (L : MJS.MultiLogger) (o : Obj)
    (h : o.any (fun kv => !(MJS.consoleTransportSchema.any (fun f => f.key == kv.1))) = true) :
    ∃ e, MJS.addConsole L o false =
      (some (.validation e),
       { L with transports := MJS.removeT "console" L.transports }, o) := by
  obtain ⟨e, he⟩ := attempt_err_of_unknown h
  refine ⟨e, ?_⟩
  unfold MJS.addConsole MJS.addSimple
  rw [he]
  cases hh : MJS.hasT "console" L.transports with
  | true => simp [hh]
  | false => simp [hh, MJS.removeT_of_not_has hh]

/-- Witness for C1's amended theorem at a concrete input. -/
theorem C1_unknown_key_aborts_after_removal_witness :
    ∃ e, MJS.addConsole ⟨none, none, none, [("console", [])]⟩
        [("bogus", JVal.bool true)] false =
      (some (.validation e), ⟨none, none, none, []⟩, [("bogus", JVal.bool true)]) :=
  C1_unknown_key_aborts_after_removal ⟨none, none, none, [("console", [])]⟩
    [("bogus", JVal.bool true)] rfl

/-- Claim C2: attaching the same kind twice in non-additive (default) mode
through the shared replace-validate-add body (`addConsole`, `addFile`,
`addElasticsearch` are direct instances, and `addPapertrail` /
`addStackdriver` run the same replace-then-add steps after their
preconditions): both calls succeed, and afterwards exactly one sink is
attached under the kind's key, configured with the second call's validated
options — last write wins. -/
theorem C2_reattach_last_write_wins (key : String) (schema : Schema)
    (L : MJS.MultiLogger) (o1 o2 c1 c2 : Obj)
    (h1 : attempt schema o1 = .ok c1) (h2 : attempt schema o2 = .ok c2) :
    (MJS.addSimple key schema L o1 false).1 = none ∧
    (MJS.addSimple key schema (MJS.addSimple key schema L o1 false).2.1 o2 false).1 = none ∧
    MJS.countK key
      (MJS.addSimple key schema (MJS.addSimple key schema L o1 false).2.1 o2 false).2.1.transports = 1 ∧
    MJS.lookupT key
      (MJS.addSimple key schema (MJS.addSimple key schema L o1 false).2.1 o2 false).2.1.transports = some c2 := by
  have e1 := MJS.addSimple_ok key schema L h1
  have hst : (MJS.addSimple key schema L o1 false).2.1 =
      { L with transports := (key, c1) :: MJS.removeT key L.transports } := by rw [e1]
  have e2 := MJS.addSimple_ok key schema
      { L with transports := (key, c1) :: MJS.removeT key L.transports } h2
  have hst2 : (MJS.addSimple key schema
      { L with transports := (key, c1) :: MJS.removeT key L.transports } o2 false).2.1 =
      { L with transports :=
          (key, c2) :: MJS.removeT key ((key, c1) :: MJS.removeT key L.transports) } := by
    rw [e2]
  refine ⟨by rw [e1], by rw [hst, e2], ?_, ?_⟩
  · rw [hst, hst2]
    dsimp only
    rw [MJS.removeT_cons_self, MJS.removeT_idem, MJS.countK_cons_self, MJS.countK_removeT]
  · rw [hst, hst2]
    dsimp only
    simp [MJS.lookupT, MJS.removeT_cons_self, MJS.removeT_idem]

/-- Witness for C2 at a concrete input: re-attaching console with
`{level: "debug"}` after a first default attach leaves exactly the one
sink carrying the second options (with schema defaults filled). -/
theorem C2_reattach_last_write_wins_witness :
    (MJS.addSimple "console" MJS.consoleTransportSchema MJS.initLogger [] false).1 = none ∧
    (MJS.addSimple "console" MJS.consoleTransportSchema
      (MJS.addSimple "console" MJS.consoleTransportSchema MJS.initLogger [] false).2.1
      [("level", JVal.str "debug")] false).1 = none ∧
    MJS.countK "console"
      (MJS.addSimple "console" MJS.consoleTransportSchema
        (MJS.addSimple "console" MJS.consoleTransportSchema MJS.initLogger [] false).2.1
        [("level", JVal.str "debug")] false).2.1.transports = 1 ∧
    MJS.lookupT "console"
      (MJS.addSimple "console" MJS.consoleTransportSchema
        (MJS.addSimple "console" MJS.consoleTransportSchema MJS.initLogger [] false).2.1
        [("level", JVal.str "debug")] false).2.1.transports =
      some [("level", JVal.str "debug"), ("colorize", JVal.bool true),
            ("prettyPrint", JVal.bool true)] :=
  C2_reattach_last_write_wins "console" MJS.consoleTransportSchema MJS.initLogger
    [] [("level", JVal.str "debug")]
    [("colorize", JVal.bool true), ("prettyPrint", JVal.bool true)]
    [("level", JVal.str "debug"), ("colorize", JVal.bool true), ("prettyPrint", JVal.bool true)]
    rfl rfl

/-- Successful `addPapertrail` in non-additive mode: with the name set and
the (program-defaulted) options validating, the sink is attached under
`Papertrail` and the caller's options have become the program-defaulted
object. -/
theorem addPapertrail_ok {L : MJS.MultiLogger} {s : String} {o cfg : Obj}
    (hn : getId L.name = some s)
    (hval : attempt MJS.papertrailTransportSchema (defaults o [("program", JVal.str s)]) = .ok cfg) :
    MJS.addPapertrail L o false =
      (none, { L with transports := ("Papertrail", cfg) :: MJS.removeT "Papertrail" L.transports },
       defaults o [("program", JVal.str s)]) := by
  unfold MJS.addPapertrail
  rw [hn]
  dsimp only
  rw [hval]
  cases hh : MJS.hasT "Papertrail" L.transports with
  | true => simp [hh, MJS.hasT_removeT]
  | false => simp [hh, MJS.removeT_of_not_has hh]

/-- Claim C3: attaching papertrail with the logger's name unset fails with
the missing-identity error for `name` and changes nothing; with the name set
to `s` and no caller-supplied `program`, a call whose (defaulted) options
validate succeeds and the validated options the sink constructor receives
carry `program = s`. -/
theorem C3_papertrail_name_and_program :
    (∀ (L : MJS.MultiLogger) (o : Obj) (m : Bool), getId L.name = none →
       MJS.addPapertrail L o m = (some (.missingIdentity "name"), L, o)) ∧
    (∀ (L : MJS.MultiLogger) (s : String) (o cfg : Obj),
       L.name = some s → s ≠ "" →
       lookupJ "program" o = none →
       attempt MJS.papertrailTransportSchema (defaults o [("program", JVal.str s)]) = .ok cfg →
       (MJS.addPapertrail L o false).1 = none ∧
       MJS.lookupT "Papertrail" (MJS.addPapertrail L o false).2.1.transports = some cfg ∧
       lookupJ "program" cfg = some (JVal.str s)) := by
  constructor
  · intro L o m h
    unfold MJS.addPapertrail
    rw [h]
  · intro L s o cfg hname hs hprog hval
    have hn : getId L.name = some s := by rw [hname]; simp [getId, hs]
    have e := addPapertrail_ok hn hval
    refine ⟨by rw [e], ?_, ?_⟩
    · rw [e]
      dsimp only
      simp [MJS.lookupT]
    · have hmem : (MJS.papertrailTransportSchema.any fun f => f.key == "program") = true := by rfl
      have hlook : lookupJ "program" (defaults o [("program", JVal.str s)]) = some (JVal.str s) := by
        rw [lookupJ_defaults, hprog]
        simp [lookupJ]
      exact attempt_lookup hval hmem hlook

/-- Witness for C3 at concrete inputs: a fresh logger rejects papertrail
with the `name` error; after the name is `svc1`, host/port options succeed
and the constructed config carries `program = "svc1"`. -/
theorem C3_papertrail_name_and_program_witness :
    MJS.addPapertrail ⟨none, none, none, []⟩ [] false =
      (some (.missingIdentity "name"), ⟨none, none, none, []⟩, []) ∧
    ((MJS.addPapertrail ⟨some "svc1", none, none, []⟩
        [("host", JVal.str "h"), ("port", JVal.num 514)] false).1 = none ∧
     MJS.lookupT "Papertrail"
       (MJS.addPapertrail ⟨some "svc1", none, none, []⟩
         [("host", JVal.str "h"), ("port", JVal.num 514)] false).2.1.transports =
       some [("host", JVal.str "h"), ("port", JVal.num 514), ("program", JVal.str "svc1"),
             ("inlineMeta", JVal.bool true), ("colorize", JVal.bool true),
             ("flushOnClose", JVal.bool true)] ∧
     lookupJ "program"
       [("host", JVal.str "h"), ("port", JVal.num 514), ("program", JVal.str "svc1"),
        ("inlineMeta", JVal.bool true), ("colorize", JVal.bool true),
        ("flushOnClose", JVal.bool true)] = some (JVal.str "svc1")) :=
  ⟨C3_papertrail_name_and_program.1 ⟨none, none, none, []⟩ [] false rfl,
   C3_papertrail_name_and_program.2 ⟨some "svc1", none, none, []⟩ "svc1"
     [("host", JVal.str "h"), ("port", JVal.num 514)]
     [("host", JVal.str "h"), ("port", JVal.num 514), ("program", JVal.str "svc1"),
      ("inlineMeta", JVal.bool true), ("colorize", JVal.bool true),
      ("flushOnClose", JVal.bool true)]
     rfl (by decide) rfl rfl⟩

/-- Claim C5: `addStackdriver` checks its preconditions in the fixed order
`name`, `serviceType`, `apiVersion` — failing with the missing-identity
error naming the first unset field — and, with all three set but neither a
truthy `keyFilePath` nor a truthy `projectId` in the options, fails with the
missing-credentials error; in each of these failure cases the logger state
and the caller's options are returned exactly as they were (no sink
constructed or attached).  The createLogger variant performs the same checks
in the same order, with `options.keyFilename || env` in place of
`keyFilePath`. -/
theorem C5_stackdriver_precondition_order :
    (∀ (keyFiles : String → Option String) (L : MJS.MultiLogger) (o : Obj) (m : Bool),
       getId L.name = none →
       MJS.addStackdriver keyFiles L o m = (some (.missingIdentity "name"), L, o)) ∧
    (∀ (keyFiles : String → Option String) (L : MJS.MultiLogger) (o : Obj) (m : Bool)
       (n : String), getId L.name = some n → getId L.serviceType = none →
       MJS.addStackdriver keyFiles L o m = (some (.missingIdentity "serviceType"), L, o)) ∧
    (∀ (keyFiles : String → Option String) (L : MJS.MultiLogger) (o : Obj) (m : Bool)
       (n st : String), getId L.name = some n → getId L.serviceType = some st →
       getId L.apiVersion = none →
       MJS.addStackdriver keyFiles L o m = (some (.missingIdentity "apiVersion"), L, o)) ∧
    (∀ (keyFiles : String → Option String) (L : MJS.MultiLogger) (o : Obj) (m : Bool)
       (n st v : String), getId L.name = some n → getId L.serviceType = some st →
       getId L.apiVersion = some v →
       jTruthyOpt (lookupJ "keyFilePath" o) = false →
       jTruthyOpt (lookupJ "projectId" o) = false →
       MJS.addStackdriver keyFiles L o m = (some .missingCredentials, L, o)) := by
  refine ⟨?_, ?_, ?_, ?_⟩
  · intro keyFiles L o m h
    unfold MJS.addStackdriver
    rw [h]
  · intro keyFiles L o m n h1 h2
    unfold MJS.addStackdriver
    rw [h1]
    dsimp only
    rw [h2]
  · intro keyFiles L o m n st h1 h2 h3
    unfold MJS.addStackdriver
    rw [h1]
    dsimp only
    rw [h2]
    dsimp only
    rw [h3]
  · intro keyFiles L o m n st v h1 h2 h3 h4 h5
    unfold MJS.addStackdriver
    rw [h1]
    dsimp only
    rw [h2]
    dsimp only
    rw [h3]
    dsimp only
    rw [h4, h5]
    rfl

/-- Witness for C5: the four failure shapes at concrete loggers and empty
options. -/
theorem C5_stackdriver_precondition_order_witness :
    MJS.addStackdriver (fun _ => none) ⟨none, none, none, []⟩ [] false =
      (some (.missingIdentity "name"), ⟨none, none, none, []⟩, []) ∧
    MJS.addStackdriver (fun _ => none) ⟨some "n", none, none, []⟩ [] false =
      (some (.missingIdentity "serviceType"), ⟨some "n", none, none, []⟩, []) ∧
    MJS.addStackdriver (fun _ => none) ⟨some "n", some "st", none, []⟩ [] false =
      (some (.missingIdentity "apiVersion"), ⟨some "n", some "st", none, []⟩, []) ∧
    MJS.addStackdriver (fun _ => none) ⟨some "n", some "st", some "v", []⟩ [] false =
      (some .missingCredentials, ⟨some "n", some "st", some "v", []⟩, []) :=
  ⟨C5_stackdriver_precondition_order.1 (fun _ => none) ⟨none, none, none, []⟩ [] false rfl,
   C5_stackdriver_precondition_order.2.1 (fun _ => none) ⟨some "n", none, none, []⟩ [] false
     "n" rfl rfl,
   C5_stackdriver_precondition_order.2.2.1 (fun _ => none) ⟨some "n", some "st", none, []⟩ []
     false "n" "st" rfl rfl rfl,
   C5_stackdriver_precondition_order.2.2.2 (fun _ => none) ⟨some "n", some "st", some "v", []⟩
     [] false "n" "st" "v" rfl rfl rfl rfl rfl⟩

/-- Reaching the deep-default merge of `addStackdriver` (identity set, no
`keyFilePath`, truthy `projectId`) with the merged options validating: the
sink is attached under `Stackdriver` with the validated config, and the
caller's options have become the deep-merged object. -/
theorem addStackdriver_ok (keyFiles : String → Option String) {L : MJS.MultiLogger}
    {n st v : String} {o cfg : Obj}
    (hn : getId L.name = some n) (hst : getId L.serviceType = some st)
    (hv : getId L.apiVersion = some v)
    (hkfp : lookupJ "keyFilePath" o = none)
    (hpid : jTruthyOpt (lookupJ "projectId" o) = true)
    (hval : attempt MJS.stackdriverTransportSchema
        (defaultsDeep o (MJS.stackSrc JVal.null n st v)) = .ok cfg) :
    MJS.addStackdriver keyFiles L o false =
      (none, { L with transports := ("Stackdriver", cfg) :: MJS.removeT "Stackdriver" L.transports },
       defaultsDeep o (MJS.stackSrc JVal.null n st v)) := by
  unfold MJS.addStackdriver
  rw [hn]
  dsimp only
  rw [hst]
  dsimp only
  rw [hv]
  dsimp only
  rw [hkfp, hpid]
  simp only [jTruthyOpt, Bool.not_true, Bool.and_false, Bool.false_eq_true, if_false]
  rw [hval]
  cases hh : MJS.hasT "Stackdriver" L.transports with
  | true => simp [hh, MJS.hasT_removeT]
  | false => simp [hh, MJS.removeT_of_not_has hh]

/-- Under the same preconditions, whatever the validation outcome, the
caller's options object after `addStackdriver` is the deep-merged object
(the merge happens before validation, on the caller's object itself). -/
theorem addStackdriver_options {keyFiles : String → Option String} {L : MJS.MultiLogger}
    {n st v : String} {o : Obj}
    (hn : getId L.name = some n) (hst : getId L.serviceType = some st)
    (hv : getId L.apiVersion = some v)
    (hkfp : lookupJ "keyFilePath" o = none)
    (hpid : jTruthyOpt (lookupJ "projectId" o) = true) :
    (MJS.addStackdriver keyFiles L o false).2.2 =
      defaultsDeep o (MJS.stackSrc JVal.null n st v) := by
  unfold MJS.addStackdriver
  rw [hn]
  dsimp only
  rw [hst]
  dsimp only
  rw [hv]
  dsimp only
  rw [hkfp, hpid]
  simp only [jTruthyOpt, Bool.not_true, Bool.and_false, Bool.false_eq_true, if_false]
  cases hatt : attempt MJS.stackdriverTransportSchema
      (defaultsDeep o (MJS.stackSrc JVal.null n st v)) with
  | error e => rfl
  | ok config =>
    dsimp only
    split <;> (split <;> rfl)

/-- With the name set, whatever the validation outcome and mode, the
caller's options object after `addPapertrail` is the program-defaulted
object (the injection happens before validation, on the caller's object
itself). -/
theorem addPapertrail_options {L : MJS.MultiLogger} {s : String} (o : Obj) (m : Bool)
    (hn : getId L.name = some s) :
    (MJS.addPapertrail L o m).2.2 = defaults o [("program", JVal.str s)] := by
  unfold MJS.addPapertrail
  rw [hn]
  dsimp only
  cases hatt : attempt MJS.papertrailTransportSchema (defaults o [("program", JVal.str s)]) with
  | error e => rfl
  | ok config =>
    dsimp only
    split <;> (split <;> rfl)

/-- Claim C7, counterexample: `addPapertrail` applies the `program` default
to the caller's options object itself — after the call the caller's object
has gained a `program` key it did not have before, so the attach does not
leave the caller's options unchanged. -/
theorem C7_counterexample :
    (MJS.addPapertrail ⟨some "n", none, none, []⟩
        [("host", JVal.str "h"), ("port", JVal.num 514)] false).2.2 =
      [("host", JVal.str "h"), ("port", JVal.num 514), ("program", JVal.str "n")] ∧
    lookupJ "program" [("host", JVal.str "h"), ("port", JVal.num 514)] = none :=
  ⟨rfl, rfl⟩

/-- Claim C7 (amended): the kinds with no default injection (`addConsole`,
`addFile`, `addElasticsearch` via their shared body) return the caller's
options object unchanged, but `addPapertrail` and `addStackdriver` apply
their default injection to the caller's object in place — the caller's
object becomes `_.defaults(options, {program: name})` resp.
`_.defaultsDeep(options, {projectId, logName, serviceContext})`.  The
injection only adds missing keys: every key the caller supplied keeps its
value (for `addStackdriver`, a caller-supplied nested object may itself gain
missing nested keys via `ddval`, never losing or changing the ones it
had). -/
theorem C7_attach_mutates_caller_options :
    (∀ (key : String) (schema : Schema) (L : MJS.MultiLogger) (o : Obj) (m : Bool),
       (MJS.addSimple key schema L o m).2.2 = o) ∧
    (∀ (L : MJS.MultiLogger) (s : String) (o : Obj) (m : Bool), getId L.name = some s →
       (MJS.addPapertrail L o m).2.2 = defaults o [("program", JVal.str s)] ∧
       (∀ (k : String) (w : JVal), lookupJ k o = some w →
          lookupJ k (MJS.addPapertrail L o m).2.2 = some w)) ∧
    (∀ (keyFiles : String → Option String) (L : MJS.MultiLogger) (n st v : String) (o : Obj),
       getId L.name = some n → getId L.serviceType = some st → getId L.apiVersion = some v →
       lookupJ "keyFilePath" o = none → jTruthyOpt (lookupJ "projectId" o) = true →
       (MJS.addStackdriver keyFiles L o false).2.2 =
         defaultsDeep o (MJS.stackSrc JVal.null n st v) ∧
       (∀ (k : String) (w : JVal), lookupJ k o = some w →
          lookupJ k (MJS.addStackdriver keyFiles L o false).2.2 =
            some (ddval (MJS.stackSrc JVal.null n st v) k w))) := by
  refine ⟨?_, ?_, ?_⟩
  · intro key schema L o m
    unfold MJS.addSimple
    dsimp only
    cases hatt : attempt schema o with
    | error e => rfl
    | ok config =>
      dsimp only
      split <;> (split <;> rfl)
  · intro L s o m hn
    refine ⟨addPapertrail_options o m hn, ?_⟩
    intro k w hw
    rw [addPapertrail_options o m hn, lookupJ_defaults, hw]
  · intro keyFiles L n st v o hn hst hv hkfp hpid
    refine ⟨addStackdriver_options hn hst hv hkfp hpid, ?_⟩
    intro k w hw
    rw [addStackdriver_options hn hst hv hkfp hpid, lookupJ_defaultsDeep, hw]

/-- Witness for C7's amended theorem at concrete inputs. -/
theorem C7_attach_mutates_caller_options_witness :
    (MJS.addSimple "console" MJS.consoleTransportSchema MJS.initLogger
       [("silent", JVal.bool true)] false).2.2 = [("silent", JVal.bool true)] ∧
    (MJS.addPapertrail ⟨some "n", none, none, []⟩
        [("host", JVal.str "h"), ("port", JVal.num 514)] false).2.2 =
      defaults [("host", JVal.str "h"), ("port", JVal.num 514)] [("program", JVal.str "n")] ∧
    lookupJ "host" (MJS.addPapertrail ⟨some "n", none, none, []⟩
        [("host", JVal.str "h"), ("port", JVal.num 514)] false).2.2 = some (JVal.str "h") ∧
    (MJS.addStackdriver (fun _ => none) ⟨some "n", some "st", some "v", []⟩
        [("projectId", JVal.str "p1")] false).2.2 =
      defaultsDeep [("projectId", JVal.str "p1")] (MJS.stackSrc JVal.null "n" "st" "v") ∧
    lookupJ "projectId" (MJS.addStackdriver (fun _ => none) ⟨some "n", some "st", some "v", []⟩
        [("projectId", JVal.str "p1")] false).2.2 =
      some (ddval (MJS.stackSrc JVal.null "n" "st" "v") "projectId" (JVal.str "p1")) :=
  ⟨C7_attach_mutates_caller_options.1 "console" MJS.consoleTransportSchema MJS.initLogger
     [("silent", JVal.bool true)] false,
   (C7_attach_mutates_caller_options.2.1 ⟨some "n", none, none, []⟩ "n"
     [("host", JVal.str "h"), ("port", JVal.num 514)] false rfl).1,
   (C7_attach_mutates_caller_options.2.1 ⟨some "n", none, none, []⟩ "n"
     [("host", JVal.str "h"), ("port", JVal.num 514)] false rfl).2 "host" (JVal.str "h") rfl,
   (C7_attach_mutates_caller_options.2.2 (fun _ => none) ⟨some "n", some "st", some "v", []⟩
     "n" "st" "v" [("projectId", JVal.str "p1")] rfl rfl rfl rfl rfl).1,
   (C7_attach_mutates_caller_options.2.2 (fun _ => none) ⟨some "n", some "st", some "v", []⟩
     "n" "st" "v" [("projectId", JVal.str "p1")] rfl rfl rfl rfl rfl).2 "projectId"
     (JVal.str "p1") rfl⟩

/-- Merging keeps the destination value whenever the source value is not an
object. -/
theorem mergeVal_str (w : JVal) (n : String) : mergeVal w (JVal.str n) = w := by
  cases w <;> rfl

/-- Successful stackdriver branch of `createLogger`'s per-entry dispatch,
with no environment credentials path, no `keyFilename` option, and a truthy
`projectId`: the validated deep-merged options are attached under
`stackdriver`. -/
theorem applyEntry_stackdriver_ok {keyFiles : String → Option String}
    {nm sT aV : Option String} {n st v : String} {o cfg : Obj} (acc : List (String × Obj))
    (hn : getId nm = some n) (hst : getId sT = some st) (hv : getId aV = some v)
    (hkf : lookupJ "keyFilename" o = none)
    (hpid : jTruthyOpt (lookupJ "projectId" o) = true)
    (hval : attempt MDTS.stackdriverTransportSchema
        (defaultsDeep o (MDTS.stackSrcD JVal.null n st v none)) = .ok cfg) :
    MDTS.applyEntry none keyFiles nm sT aV acc "stackdriver" (.o o) =
      .ok (acc ++ [("stackdriver", cfg)]) := by
  unfold MDTS.applyEntry
  dsimp only
  rw [if_neg (by decide), if_neg (by decide), if_neg (by decide), if_neg (by decide),
      if_pos rfl]
  rw [hn]
  dsimp only
  rw [hst]
  dsimp only
  rw [hv]
  dsimp only
  rw [hkf, hpid]
  simp only [jTruthyOpt, getId, Option.map_none, Bool.not_true, Bool.and_false,
    Bool.false_eq_true, if_false, Option.isNone_none]
  dsimp only [Option.map]
  rw [hval]

/-- Claim C4, counterexample: in the class variant (`addStackdriver` of
`src/index.js`) with identity `name = "n"`, `serviceType = "st"`,
`apiVersion = "v"` and options `{projectId: "p1"}`, the options the sink
constructor receives carry `serviceContext.service = "st"` — the
serviceType, not the name `"n"` the claim prescribes (and `logName = "n"`,
the name, not the serviceType). -/
theorem C4_counterexample :
    (MJS.addStackdriver (fun _ => none) ⟨some "n", some "st", some "v", []⟩
        [("projectId", JVal.str "p1")] false).1 = none ∧
    MJS.lookupT "Stackdriver"
      (MJS.addStackdriver (fun _ => none) ⟨some "n", some "st", some "v", []⟩
        [("projectId", JVal.str "p1")] false).2.1.transports =
      some [("projectId", JVal.str "p1"), ("logName", JVal.str "n"),
            ("serviceContext", JVal.obj
              [("service", JVal.str "st"), ("version", JVal.str "v"),
               ("resourceType", JVal.str "api")])] ∧
    "st" ≠ "n" :=
  ⟨rfl, rfl, by decide⟩

/-- Claim C4 (amended): attaching stackdriver with the identity set and a
truthy `projectId` supplied injects `serviceContext` and `logName` defaults
from the identity through a deep-default merge that never overwrites any
caller-supplied field, nested `serviceContext` fields included, and
`serviceContext.resourceType = "api"` whenever the caller did not supply it;
but the two variants draw the defaults from different identity fields — the
class variant (first conjunct) uses `serviceContext.service = serviceType`
and `logName = name`, while the createLogger variant (second conjunct, the
shape the claim describes) uses `serviceContext.service = name` and
`logName = serviceType`. -/
theorem C4_stackdriver_default_injection :
    (∀ (keyFiles : String → Option String) (L : MJS.MultiLogger) (n st v : String)
       (o sc cfg : Obj),
       getId L.name = some n → getId L.serviceType = some st → getId L.apiVersion = some v →
       lookupJ "keyFilePath" o = none → jTruthyOpt (lookupJ "projectId" o) = true →
       lookupJ "serviceContext" o = some (JVal.obj sc) →
       attempt MJS.stackdriverTransportSchema
         (defaultsDeep o (MJS.stackSrc JVal.null n st v)) = .ok cfg →
       (MJS.addStackdriver keyFiles L o false).1 = none ∧
       MJS.lookupT "Stackdriver"
         (MJS.addStackdriver keyFiles L o false).2.1.transports = some cfg ∧
       lookupJ "serviceContext" cfg =
         some (JVal.obj (defaults sc
           [("service", JVal.str st), ("version", JVal.str v),
            ("resourceType", JVal.str "api")])) ∧
       (∀ (k : String) (w : JVal), lookupJ k sc = some w →
          lookupJ k (defaults sc
            [("service", JVal.str st), ("version", JVal.str v),
             ("resourceType", JVal.str "api")]) = some w) ∧
       (lookupJ "resourceType" sc = none →
          lookupJ "resourceType" (defaults sc
            [("service", JVal.str st), ("version", JVal.str v),
             ("resourceType", JVal.str "api")]) = some (JVal.str "api")) ∧
       lookupJ "logName" cfg = some ((lookupJ "logName" o).getD (JVal.str n))) ∧
    (∀ (keyFiles : String → Option String) (nm sT aV : Option String) (n st v : String)
       (o sc cfg : Obj) (acc : List (String × Obj)),
       getId nm = some n → getId sT = some st → getId aV = some v →
       lookupJ "keyFilename" o = none → jTruthyOpt (lookupJ "projectId" o) = true →
       lookupJ "serviceContext" o = some (JVal.obj sc) →
       attempt MDTS.stackdriverTransportSchema
         (defaultsDeep o (MDTS.stackSrcD JVal.null n st v none)) = .ok cfg →
       MDTS.applyEntry none keyFiles nm sT aV acc "stackdriver" (.o o) =
         .ok (acc ++ [("stackdriver", cfg)]) ∧
       lookupJ "serviceContext" cfg =
         some (JVal.obj (defaults sc
           [("service", JVal.str n), ("version", JVal.str v),
            ("resourceType", JVal.str "api")])) ∧
       (lookupJ "resourceType" sc = none →
          lookupJ "resourceType" (defaults sc
            [("service", JVal.str n), ("version", JVal.str v),
             ("resourceType", JVal.str "api")]) = some (JVal.str "api")) ∧
       lookupJ "logName" cfg = some ((lookupJ "logName" o).getD (JVal.str st))) := by
  constructor
  · intro keyFiles L n st v o sc cfg hn hst hv hkfp hpid hsc hval
    have e := addStackdriver_ok keyFiles hn hst hv hkfp hpid hval
    have hmergedSC : lookupJ "serviceContext" (defaultsDeep o (MJS.stackSrc JVal.null n st v)) =
        some (JVal.obj (defaults sc
          [("service", JVal.str st), ("version", JVal.str v),
           ("resourceType", JVal.str "api")])) := by
      rw [lookupJ_defaultsDeep, hsc]
      rfl
    refine ⟨by rw [e], ?_, ?_, ?_, ?_, ?_⟩
    · rw [e]
      dsimp only
      simp [MJS.lookupT]
    · exact attempt_lookup hval (by rfl) hmergedSC
    · intro k w hw
      rw [lookupJ_defaults, hw]
    · intro h
      rw [lookupJ_defaults, h]
      rfl
    · cases hlo : lookupJ "logName" o with
      | none =>
        have hm : lookupJ "logName" (defaultsDeep o (MJS.stackSrc JVal.null n st v)) =
            some (JVal.str n) := by
          rw [lookupJ_defaultsDeep, hlo]
          rfl
        rw [attempt_lookup hval (by rfl) hm]
        rfl
      | some w =>
        have hm : lookupJ "logName" (defaultsDeep o (MJS.stackSrc JVal.null n st v)) =
            some w := by
          rw [lookupJ_defaultsDeep, hlo]
          dsimp only
          rw [show ddval (MJS.stackSrc JVal.null n st v) "logName" w = mergeVal w (JVal.str n)
              from rfl, mergeVal_str]
        rw [attempt_lookup hval (by rfl) hm]
        rfl
  · intro keyFiles nm sT aV n st v o sc cfg acc hn hst hv hkf hpid hsc hval
    have hmergedSC : lookupJ "serviceContext"
        (defaultsDeep o (MDTS.stackSrcD JVal.null n st v none)) =
        some (JVal.obj (defaults sc
          [("service", JVal.str n), ("version", JVal.str v),
           ("resourceType", JVal.str "api")])) := by
      rw [lookupJ_defaultsDeep, hsc]
      rfl
    refine ⟨applyEntry_stackdriver_ok acc hn hst hv hkf hpid hval, ?_, ?_, ?_⟩
    · exact attempt_lookup hval (by rfl) hmergedSC
    · intro h
      rw [lookupJ_defaults, h]
      rfl
    · cases hlo : lookupJ "logName" o with
      | none =>
        have hm : lookupJ "logName" (defaultsDeep o (MDTS.stackSrcD JVal.null n st v none)) =
            some (JVal.str st) := by
          rw [lookupJ_defaultsDeep, hlo]
          rfl
        rw [attempt_lookup hval (by rfl) hm]
        rfl
      | some w =>
        have hm : lookupJ "logName" (defaultsDeep o (MDTS.stackSrcD JVal.null n st v none)) =
            some w := by
          rw [lookupJ_defaultsDeep, hlo]
          dsimp only
          rw [show ddval (MDTS.stackSrcD JVal.null n st v none) "logName" w =
              mergeVal w (JVal.str st) from rfl, mergeVal_str]
        rw [attempt_lookup hval (by rfl) hm]
        rfl

/-- Witness for C4's amended theorem: both variants at identity
`("n", "st", "v")` and options `{projectId: "p1", serviceContext: {service:
"mine"}}` — the caller's nested `service` survives, `version` /
`resourceType` are filled in, and `logName` defaults to `"n"` (class
variant) resp. `"st"` (createLogger variant). -/
theorem C4_stackdriver_default_injection_witness :
    ((MJS.addStackdriver (fun _ => none) ⟨some "n", some "st", some "v", []⟩
        [("projectId", JVal.str "p1"),
         ("serviceContext", JVal.obj [("service", JVal.str "mine")])] false).1 = none ∧
     MJS.lookupT "Stackdriver"
       (MJS.addStackdriver (fun _ => none) ⟨some "n", some "st", some "v", []⟩
         [("projectId", JVal.str "p1"),
          ("serviceContext", JVal.obj [("service", JVal.str "mine")])] false).2.1.transports =
       some [("projectId", JVal.str "p1"), ("logName", JVal.str "n"),
             ("serviceContext", JVal.obj
               [("service", JVal.str "mine"), ("version", JVal.str "v"),
                ("resourceType", JVal.str "api")])] ∧
     lookupJ "serviceContext"
         [("projectId", JVal.str "p1"), ("logName", JVal.str "n"),
          ("serviceContext", JVal.obj
            [("service", JVal.str "mine"), ("version", JVal.str "v"),
             ("resourceType", JVal.str "api")])] =
       some (JVal.obj (defaults [("service", JVal.str "mine")]
         [("service", JVal.str "st"), ("version", JVal.str "v"),
          ("resourceType", JVal.str "api")])) ∧
     (∀ (k : String) (w : JVal), lookupJ k [("service", JVal.str "mine")] = some w →
        lookupJ k (defaults [("service", JVal.str "mine")]
          [("service", JVal.str "st"), ("version", JVal.str "v"),
           ("resourceType", JVal.str "api")]) = some w) ∧
     (lookupJ "resourceType" [("service", JVal.str "mine")] = none →
        lookupJ "resourceType" (defaults [("service", JVal.str "mine")]
          [("service", JVal.str "st"), ("version", JVal.str "v"),
           ("resourceType", JVal.str "api")]) = some (JVal.str "api")) ∧
     lookupJ "logName"
         [("projectId", JVal.str "p1"), ("logName", JVal.str "n"),
          ("serviceContext", JVal.obj
            [("service", JVal.str "mine"), ("version", JVal.str "v"),
             ("resourceType", JVal.str "api")])] =
       some ((lookupJ "logName"
         [("projectId", JVal.str "p1"),
          ("serviceContext", JVal.obj [("service", JVal.str "mine")])]).getD (JVal.str "n"))) ∧
    MDTS.applyEntry none (fun _ => none) (some "n") (some "st") (some "v") [] "stackdriver"
        (.o [("projectId", JVal.str "p1"),
             ("serviceContext", JVal.obj [("service", JVal.str "mine")])]) =
      .ok [("stackdriver",
            [("level", JVal.str "info"), ("projectId", JVal.str "p1"),
             ("logName", JVal.str "st"),
             ("serviceContext", JVal.obj
               [("service", JVal.str "mine"), ("version", JVal.str "v"),
                ("resourceType", JVal.str "api")]),
             ("labels", JVal.obj [("name", JVal.str "n"), ("version", JVal.str "v")])])] :=
  ⟨C4_stackdriver_default_injection.1 (fun _ => none) ⟨some "n", some "st", some "v", []⟩
     "n" "st" "v"
     [("projectId", JVal.str "p1"),
      ("serviceContext", JVal.obj [("service", JVal.str "mine")])]
     [("service", JVal.str "mine")]
     [("projectId", JVal.str "p1"), ("logName", JVal.str "n"),
      ("serviceContext", JVal.obj
        [("service", JVal.str "mine"), ("version", JVal.str "v"),
         ("resourceType", JVal.str "api")])]
     rfl rfl rfl rfl rfl rfl rfl,
   (C4_stackdriver_default_injection.2 (fun _ => none) (some "n") (some "st") (some "v")
     "n" "st" "v"
     [("projectId", JVal.str "p1"),
      ("serviceContext", JVal.obj [("service", JVal.str "mine")])]
     [("service", JVal.str "mine")]
     [("level", JVal.str "info"), ("projectId", JVal.str "p1"), ("logName", JVal.str "st"),
      ("serviceContext", JVal.obj
        [("service", JVal.str "mine"), ("version", JVal.str "v"),
         ("resourceType", JVal.str "api")]),
      ("labels", JVal.obj [("name", JVal.str "n"), ("version", JVal.str "v")])]
     [] rfl rfl rfl rfl rfl rfl rfl).1⟩

/-- Claim C6: for every entry of the bulk `transports` mapping, the
createLogger applier normalizes shorthand exactly as specified — `false`
skips the kind (nothing attached, no error), `"disabled"` likewise, `true`
behaves exactly like the empty options object, `"enabled"` likewise, and any
other string raises the fatal unknown-shorthand error for that value and
kind; a full options object (the `.o` case the `true`/`"enabled"` conjuncts
reduce to) is passed straight to the per-kind attach. -/
theorem C6_shorthand_normalization
    (env : Option String) (keyFiles : String → Option String)
    (nm sT aV : Option String) (acc : List (String × Obj)) (k : String) :
    MDTS.applyEntry env keyFiles nm sT aV acc k (.b false) = .ok acc ∧
    MDTS.applyEntry env keyFiles nm sT aV acc k (.s "disabled") = .ok acc ∧
    MDTS.applyEntry env keyFiles nm sT aV acc k (.b true) =
      MDTS.applyEntry env keyFiles nm sT aV acc k (.o []) ∧
    MDTS.applyEntry env keyFiles nm sT aV acc k (.s "enabled") =
      MDTS.applyEntry env keyFiles nm sT aV acc k (.o []) ∧
    (∀ s : String, s ≠ "enabled" → s ≠ "disabled" →
       MDTS.applyEntry env keyFiles nm sT aV acc k (.s s) =
         .error (.unknownShorthand s k)) := by
  refine ⟨rfl, rfl, rfl, rfl, ?_⟩
  intro s h1 h2
  unfold MDTS.applyEntry
  dsimp only
  rw [if_neg h1, if_neg h2]

/-- Witness for C6 at a concrete mapping entry (`console`, shorthand
`"bogus"` among the others). -/
theorem C6_shorthand_normalization_witness :
    MDTS.applyEntry none (fun _ => none) none none none [] "console" (.b false) = .ok [] ∧
    MDTS.applyEntry none (fun _ => none) none none none [] "console" (.s "disabled") = .ok [] ∧
    MDTS.applyEntry none (fun _ => none) none none none [] "console" (.b true) =
      MDTS.applyEntry none (fun _ => none) none none none [] "console" (.o []) ∧
    MDTS.applyEntry none (fun _ => none) none none none [] "console" (.s "enabled") =
      MDTS.applyEntry none (fun _ => none) none none none [] "console" (.o []) ∧
    MDTS.applyEntry none (fun _ => none) none none none [] "console" (.s "bogus") =
      .error (.unknownShorthand "bogus" "console") :=
  ⟨(C6_shorthand_normalization none (fun _ => none) none none none [] "console").1,
   (C6_shorthand_normalization none (fun _ => none) none none none [] "console").2.1,
   (C6_shorthand_normalization none (fun _ => none) none none none [] "console").2.2.1,
   (C6_shorthand_normalization none (fun _ => none) none none none [] "console").2.2.2.1,
   (C6_shorthand_normalization none (fun _ => none) none none none [] "console").2.2.2.2
     "bogus" (by decide) (by decide)⟩

/-- Claim C8: every schema that declares a `level` field validates it
against the closed, case-sensitive enumeration `levelEnum` — an options
object carrying any string outside it fails validation for all nine
level-bearing schemas of the two variants (the class variant's stackdriver
schema declares no `level` key, so there any `level` fails as an unknown
field) — and on success the declared defaults are filled in: the class
console schema defaults `colorize` and `prettyPrint` to `true`, the
createLogger console schema defaults `level` to `"info"`. -/
theorem C8_level_enum_and_defaults :
    (∀ (s : String) (o : Obj), levelEnum.contains s = false →
       lookupJ "level" o = some (JVal.str s) →
       (∃ e, attempt MJS.consoleTransportSchema o = .error e) ∧
       (∃ e, attempt MJS.fileTransportSchema o = .error e) ∧
       (∃ e, attempt MJS.papertrailTransportSchema o = .error e) ∧
       (∃ e, attempt MJS.elasticsearchTransportSchema o = .error e) ∧
       (∃ e, attempt MDTS.consoleTransportSchema o = .error e) ∧
       (∃ e, attempt MDTS.fileTransportSchema o = .error e) ∧
       (∃ e, attempt MDTS.papertrailTransportSchema o = .error e) ∧
       (∃ e, attempt MDTS.elasticsearchTransportSchema o = .error e) ∧
       (∃ e, attempt MDTS.stackdriverTransportSchema o = .error e)) ∧
    (∀ (o r : Obj), attempt MJS.consoleTransportSchema o = .ok r →
       (lookupJ "colorize" o = none → lookupJ "colorize" r = some (JVal.bool true)) ∧
       (lookupJ "prettyPrint" o = none → lookupJ "prettyPrint" r = some (JVal.bool true))) ∧
    (∀ (o r : Obj), attempt MDTS.consoleTransportSchema o = .ok r →
       lookupJ "level" o = none → lookupJ "level" r = some (JVal.str "info")) := by
  refine ⟨?_, ?_, ?_⟩
  · intro s o hs hlev
    refine ⟨?_, ?_, ?_, ?_, ?_, ?_, ?_, ?_, ?_⟩
    · exact attempt_err_of_bad_field
        (f := ⟨"level", false, none, .base (.benum levelEnum)⟩)
        (by simp [MJS.consoleTransportSchema]) hlev hs
    · exact attempt_err_of_bad_field
        (f := ⟨"level", false, none, .base (.benum levelEnum)⟩)
        (by simp [MJS.fileTransportSchema]) hlev hs
    · exact attempt_err_of_bad_field
        (f := ⟨"level", false, none, .base (.benum levelEnum)⟩)
        (by simp [MJS.papertrailTransportSchema]) hlev hs
    · exact attempt_err_of_bad_field
        (f := ⟨"level", false, none, .base (.benum levelEnum)⟩)
        (by simp [MJS.elasticsearchTransportSchema]) hlev hs
    · exact attempt_err_of_bad_field
        (f := ⟨"level", false, some (.str "info"), .base (.benum levelEnum)⟩)
        (by simp [MDTS.consoleTransportSchema]) hlev hs
    · exact attempt_err_of_bad_field
        (f := ⟨"level", false, some (.str "info"), .base (.benum levelEnum)⟩)
        (by simp [MDTS.fileTransportSchema]) hlev hs
    · exact attempt_err_of_bad_field
        (f := ⟨"level", false, some (.str "info"), .base (.benum levelEnum)⟩)
        (by simp [MDTS.papertrailTransportSchema]) hlev hs
    · exact attempt_err_of_bad_field
        (f := ⟨"level", false, some (.str "info"), .base (.benum levelEnum)⟩)
        (by simp [MDTS.elasticsearchTransportSchema]) hlev hs
    · exact attempt_err_of_bad_field
        (f := ⟨"level", false, some (.str "info"), .base (.benum levelEnum)⟩)
        (by simp [MDTS.stackdriverTransportSchema]) hlev hs
  · intro o r hr
    constructor
    · intro ho
      exact attempt_default ⟨"colorize", false, some (.bool true), .base .bbool⟩
        (JVal.bool true) hr rfl (by simp [MJS.consoleTransportSchema]) ho (by decide)
    · intro ho
      exact attempt_default ⟨"prettyPrint", false, some (.bool true), .base .bbool⟩
        (JVal.bool true) hr rfl (by simp [MJS.consoleTransportSchema]) ho (by decide)
  · intro o r hr ho
    exact attempt_default ⟨"level", false, some (.str "info"), .base (.benum levelEnum)⟩
      (JVal.str "info") hr rfl (by simp [MDTS.consoleTransportSchema]) ho (by decide)

/-- Witness for C8: the string `"Info"` (wrong case) is rejected by all nine
level-bearing schemas; validating empty options fills the class console
defaults `colorize = prettyPrint = true` and the createLogger console
default `level = "info"`. -/
theorem C8_level_enum_and_defaults_witness :
    ((∃ e, attempt MJS.consoleTransportSchema [("level", JVal.str "Info")] = .error e) ∧
     (∃ e, attempt MJS.fileTransportSchema [("level", JVal.str "Info")] = .error e) ∧
     (∃ e, attempt MJS.papertrailTransportSchema [("level", JVal.str "Info")] = .error e) ∧
     (∃ e, attempt MJS.elasticsearchTransportSchema [("level", JVal.str "Info")] = .error e) ∧
     (∃ e, attempt MDTS.consoleTransportSchema [("level", JVal.str "Info")] = .error e) ∧
     (∃ e, attempt MDTS.fileTransportSchema [("level", JVal.str "Info")] = .error e) ∧
     (∃ e, attempt MDTS.papertrailTransportSchema [("level", JVal.str "Info")] = .error e) ∧
     (∃ e, attempt MDTS.elasticsearchTransportSchema [("level", JVal.str "Info")] = .error e) ∧
     (∃ e, attempt MDTS.stackdriverTransportSchema [("level", JVal.str "Info")] = .error e)) ∧
    ((lookupJ "colorize" ([] : Obj) = none →
        lookupJ "colorize" [("colorize", JVal.bool true), ("prettyPrint", JVal.bool true)] =
          some (JVal.bool true)) ∧
     (lookupJ "prettyPrint" ([] : Obj) = none →
        lookupJ "prettyPrint" [("colorize", JVal.bool true), ("prettyPrint", JVal.bool true)] =
          some (JVal.bool true))) ∧
    (lookupJ "level" ([] : Obj) = none →
       lookupJ "level" [("level", JVal.str "info")] = some (JVal.str "info")) :=
  ⟨C8_level_enum_and_defaults.1 "Info" [("level", JVal.str "Info")] (by decide) rfl,
   C8_level_enum_and_defaults.2.1 []
     [("colorize", JVal.bool true), ("prettyPrint", JVal.bool true)] rfl,
   C8_level_enum_and_defaults.2.2 [] [("level", JVal.str "info")] rfl⟩

/-- An absent required field makes the field walk fail. -/
theorem attemptFields_err_missing {schema : Schema} {o : Obj} {f : SField}
    (hmem : f ∈ schema) (hreq : f.required = true) (ho : lookupJ f.key o = none) :
    ∃ e, attemptFields schema o = .error e := by
  induction schema with
  | nil => simp at hmem
  | cons g gs ih =>
    rw [attemptFields]
    rcases List.mem_cons.mp hmem with hg | hg
    · subst hg
      exact ⟨"missing field " ++ f.key, by rw [ho]; simp [hreq]⟩
    · obtain ⟨e, he⟩ := ih hg
      split
      next w hfo =>
        split
        next hc => exact ⟨e, by rw [he]; rfl⟩
        next hc => exact ⟨_, rfl⟩
      next hfo =>
        split
        next => exact ⟨_, rfl⟩
        next =>
          split
          next d hd => exact ⟨e, by rw [he]; rfl⟩
          next hd => exact ⟨e, he⟩

theorem attempt_err_of_missing (schema : Schema) {o : Obj} {f : SField}
    (hmem : f ∈ schema) (hreq : f.required = true) (ho : lookupJ f.key o = none) :
    ∃ e, attempt schema o = .error e := by
  unfold attempt
  split
  next kv hf => exact ⟨_, rfl⟩
  next => exact attemptFields_err_missing hmem hreq ho

theorem lookupJ_mapVal_self (k : String) (f : JVal → JVal)
    (conf : List (String × JVal)) :
    lookupJ k (MJS.mapVal k f conf) = (lookupJ k conf).map f := by
  induction conf with
  | nil => rfl
  | cons kv rest ih =>
    unfold MJS.mapVal at ih ⊢
    by_cases hk : kv.1 = k <;> simp [lookupJ, hk, ih]

theorem lookupJ_mapVal_other {k' k : String} (hk : k' ≠ k) (f : JVal → JVal)
    (conf : List (String × JVal)) :
    lookupJ k (MJS.mapVal k' f conf) = lookupJ k conf := by
  induction conf with
  | nil => rfl
  | cons kv rest ih =>
    unfold MJS.mapVal at ih ⊢
    by_cases hkk : kv.1 = k' <;> by_cases hkv : kv.1 = k <;>
      simp_all [lookupJ]

/-- A mapping whose `stackdriver` entry is an object without `projectId`
fails the upfront whole-mapping validation (the stackdriver schema requires
`projectId`). -/
theorem validateBulk_err_of_stackdriver {conf : List (String × JVal)} {o : Obj}
    (hmem : lookupJ "stackdriver" conf = some (JVal.obj o))
    (hpid : lookupJ "projectId" o = none) :
    ∃ e, MJS.validateBulk conf = .error e := by
  induction conf with
  | nil => simp [lookupJ] at hmem
  | cons kv rest ih =>
    obtain ⟨k, v⟩ := kv
    by_cases hk : k = "stackdriver"
    · subst hk
      rw [lookupJ, if_pos rfl] at hmem
      cases hmem
      obtain ⟨e, he⟩ := attempt_err_of_missing MJS.stackdriverTransportSchema
        (o := o) (f := ⟨"projectId", true, none, .base .bstr⟩)
        (by simp [MJS.stackdriverTransportSchema]) rfl hpid
      refine ⟨e, ?_⟩
      rw [MJS.validateBulk]
      rw [show MJS.lookupSchema "stackdriver" MJS.kindSchemas =
          some MJS.stackdriverTransportSchema from rfl]
      dsimp only
      rw [he]
    · rw [lookupJ, if_neg (by simpa using hk)] at hmem
      rw [MJS.validateBulk]
      split
      next => exact ⟨_, rfl⟩
      next sch hsch =>
        cases v with
        | obj o2 =>
          dsimp only
          cases hatt : attempt sch o2 with
          | error e2 => exact ⟨e2, rfl⟩
          | ok r =>
            obtain ⟨e, he⟩ := ih hmem
            exact ⟨e, he⟩
        | null => exact ⟨_, rfl⟩
        | str s => exact ⟨_, rfl⟩
        | num n => exact ⟨_, rfl⟩
        | bool b => exact ⟨_, rfl⟩
        | func => exact ⟨_, rfl⟩
        | arr xs => exact ⟨_, rfl⟩

/-- The `stackdriver` entry of the defaulted mapping: the upfront injection
adds at most `logName`, so a missing `projectId` is still missing. -/
theorem bulkDefaults_stackdriver {L : MJS.MultiLogger} {conf : List (String × JVal)}
    {o : Obj} (hmem : lookupJ "stackdriver" conf = some (JVal.obj o))
    (hpid : lookupJ "projectId" o = none) :
    ∃ o2, lookupJ "stackdriver" (MJS.bulkDefaults L conf) = some (JVal.obj o2) ∧
      lookupJ "projectId" o2 = none := by
  have h1 : lookupJ "stackdriver" (MJS.injDefault L "papertrail" "program" conf) =
      some (JVal.obj o) := by
    unfold MJS.injDefault
    split
    · rw [lookupJ_mapVal_other (by decide)]
      exact hmem
    · exact hmem
  refine ⟨defaults o (match getId L.name with
      | some n => [("logName", JVal.str n)]
      | none => []), ?_, ?_⟩
  · unfold MJS.bulkDefaults
    generalize hc1 : MJS.injDefault L "papertrail" "program" conf = c1 at h1 ⊢
    unfold MJS.injDefault
    rw [h1]
    simp only [jTruthyOpt, jTruthy, if_true]
    rw [lookupJ_mapVal_self, h1]
    rfl
  · rw [lookupJ_defaults, hpid]
    cases hg : getId L.name <;> rfl

/-- Claim C9: `addByConfig` validates the whole (default-injected) mapping
against every kind's schema before attaching anything — when that upfront
validation fails, the call throws the validation error with the logger state
exactly as before (no transport of the bulk call attached) and the mapping
carrying only the `program` / `logName` injections; in particular a
`stackdriver` entry lacking the caller-supplied required `projectId`
(which the injection does not add) aborts the whole bulk call this way,
whatever else the mapping contains. -/
theorem C9_bulk_upfront_validation :
    (∀ (keyFiles : String → Option String) (L : MJS.MultiLogger)
       (conf : List (String × JVal)) (e : String),
       MJS.validateBulk (MJS.bulkDefaults L conf) = .error e →
       MJS.addByConfig keyFiles L conf =
         (some (.validation e), L, MJS.bulkDefaults L conf)) ∧
    (∀ (keyFiles : String → Option String) (L : MJS.MultiLogger)
       (conf : List (String × JVal)) (o : Obj),
       lookupJ "stackdriver" conf = some (JVal.obj o) →
       lookupJ "projectId" o = none →
       ∃ e, MJS.addByConfig keyFiles L conf =
         (some (.validation e), L, MJS.bulkDefaults L conf)) := by
  have harm1 : ∀ (keyFiles : String → Option String) (L : MJS.MultiLogger)
      (conf : List (String × JVal)) (e : String),
      MJS.validateBulk (MJS.bulkDefaults L conf) = .error e →
      MJS.addByConfig keyFiles L conf =
        (some (.validation e), L, MJS.bulkDefaults L conf) := by
    intro keyFiles L conf e h
    unfold MJS.addByConfig
    dsimp only
    rw [h]
  refine ⟨harm1, ?_⟩
  intro keyFiles L conf o hmem hpid
  obtain ⟨o2, h2, hpid2⟩ := bulkDefaults_stackdriver (L := L) hmem hpid
  obtain ⟨e, he⟩ := validateBulk_err_of_stackdriver h2 hpid2
  exact ⟨e, harm1 keyFiles L conf e he⟩

/-- Witness for C9: a mapping with a valid `console` entry and a
`stackdriver` entry missing `projectId` attaches nothing at all — the
logger state is unchanged even though the console entry alone would have
validated. -/
theorem C9_bulk_upfront_validation_witness :
    ∃ e, MJS.addByConfig (fun _ => none) MJS.initLogger
        [("console", JVal.obj []), ("stackdriver", JVal.obj [])] =
      (some (.validation e), MJS.initLogger,
       MJS.bulkDefaults MJS.initLogger
         [("console", JVal.obj []), ("stackdriver", JVal.obj [])]) :=
  C9_bulk_upfront_validation.2 (fun _ => none) MJS.initLogger
    [("console", JVal.obj []), ("stackdriver", JVal.obj [])] [] rfl rfl

/-- Claim C10: the constructor accepts a single non-empty string, treated
exactly as `setName` treats it (same state; the empty string is rejected by
both, keeping the equivalence); accepts an object of the three identity
fields, setting each present (hence truthy, values being validated
non-empty strings) field and leaving omitted fields unset; and rejects any
value that is neither a string nor such an object with a validation
error. -/
theorem C10_constructor_identity :
    (∀ s : String, s ≠ "" →
       MJS.mkMultiLogger (some (JVal.str s)) = .ok ⟨some s, none, none, []⟩ ∧
       MJS.setName MJS.initLogger (JVal.str s) = .ok ⟨some s, none, none, []⟩) ∧
    ((MJS.mkMultiLogger (some (JVal.str ""))).isOk = false ∧
     (MJS.setName MJS.initLogger (JVal.str "")).isOk = false) ∧
    (∀ (no sv av : Option String),
       (∀ s, no = some s → s ≠ "") →
       (∀ s, sv = some s → s ≠ "") →
       (∀ s, av = some s → s ≠ "") →
       MJS.mkMultiLogger (some (JVal.obj (MJS.mkIdObj no sv av))) = .ok ⟨no, sv, av, []⟩) ∧
    (∀ v : JVal, (∀ s, v ≠ JVal.str s) →
       (∀ o2, v = JVal.obj o2 → MJS.ctorObjOk o2 = false) →
       ∃ e, MJS.mkMultiLogger (some v) = .error e) := by
  refine ⟨?_, ⟨rfl, rfl⟩, ?_, ?_⟩
  · intro s hs
    constructor
    · unfold MJS.mkMultiLogger
      dsimp only
      rw [if_pos (by simp [MJS.ctorParamOk, hs])]
      rfl
    · unfold MJS.setName
      dsimp only
      rw [if_neg hs]
      rfl
  · intro no sv av hno hsv hav
    rcases no with _ | s1 <;> rcases sv with _ | s2 <;> rcases av with _ | s3
    all_goals {
      first
      | (exact rfl)
      | (have h1 := hno _ rfl
         have h2 := hsv _ rfl
         have h3 := hav _ rfl
         simp [MJS.mkMultiLogger, MJS.ctorParamOk, MJS.ctorObjOk, MJS.getStrField,
           MJS.mkIdObj, MJS.initLogger, lookupJ, h1, h2, h3])
      | (have h1 := hno _ rfl
         have h2 := hsv _ rfl
         simp [MJS.mkMultiLogger, MJS.ctorParamOk, MJS.ctorObjOk, MJS.getStrField,
           MJS.mkIdObj, MJS.initLogger, lookupJ, h1, h2])
      | (have h1 := hno _ rfl
         have h3 := hav _ rfl
         simp [MJS.mkMultiLogger, MJS.ctorParamOk, MJS.ctorObjOk, MJS.getStrField,
           MJS.mkIdObj, MJS.initLogger, lookupJ, h1, h3])
      | (have h2 := hsv _ rfl
         have h3 := hav _ rfl
         simp [MJS.mkMultiLogger, MJS.ctorParamOk, MJS.ctorObjOk, MJS.getStrField,
           MJS.mkIdObj, MJS.initLogger, lookupJ, h2, h3])
      | (have h1 := hno _ rfl
         simp [MJS.mkMultiLogger, MJS.ctorParamOk, MJS.ctorObjOk, MJS.getStrField,
           MJS.mkIdObj, MJS.initLogger, lookupJ, h1])
      | (have h2 := hsv _ rfl
         simp [MJS.mkMultiLogger, MJS.ctorParamOk, MJS.ctorObjOk, MJS.getStrField,
           MJS.mkIdObj, MJS.initLogger, lookupJ, h2])
      | (have h3 := hav _ rfl
         simp [MJS.mkMultiLogger, MJS.ctorParamOk, MJS.ctorObjOk, MJS.getStrField,
           MJS.mkIdObj, MJS.initLogger, lookupJ, h3]) }
  · intro v hstr hobj
    cases v with
    | str s => exact absurd rfl (hstr s)
    | obj o2 =>
      refine ⟨LogErr.validation "invalid constructor params", ?_⟩
      unfold MJS.mkMultiLogger
      dsimp only
      rw [if_neg (by simp [MJS.ctorParamOk, hobj o2 rfl])]
    | null => exact ⟨_, rfl⟩
    | num n => exact ⟨_, rfl⟩
    | bool b => exact ⟨_, rfl⟩
    | func => exact ⟨_, rfl⟩
    | arr xs => exact ⟨_, rfl⟩

/-- Witness for C10 at concrete parameters. -/
theorem C10_constructor_identity_witness :
    (MJS.mkMultiLogger (some (JVal.str "abc")) = .ok ⟨some "abc", none, none, []⟩ ∧
     MJS.setName MJS.initLogger (JVal.str "abc") = .ok ⟨some "abc", none, none, []⟩) ∧
    MJS.mkMultiLogger (some (JVal.obj (MJS.mkIdObj (some "a") none (some "v")))) =
      .ok ⟨some "a", none, some "v", []⟩ ∧
    (∃ e, MJS.mkMultiLogger (some (JVal.num 5)) = .error e) :=
  ⟨C10_constructor_identity.1 "abc" (by decide),
   C10_constructor_identity.2.2.1 (some "a") none (some "v")
     (fun s h => by cases Option.some.inj h; decide)
     (fun s h => Option.noConfusion h)
     (fun s h => by cases Option.some.inj h; decide),
   C10_constructor_identity.2.2.2 (JVal.num 5) (fun s => by simp)
     (fun o2 h => by cases h)⟩

end Multilogger

